import Mathlib

/-!
Verification of the IRC protocol core of `crikey-irc` against its
natural-language specification.

The Rust sources are shallowly embedded: strings become `List Char`
(written `Str`), fallible `FromStr` implementations become functions into
`Except ParseError _`, and the mutating `MessageParams::push` becomes a
function returning the new state together with an optional error, so that
the "state unchanged on error" behaviour of the original is visible.

Source files embedded here:
  - `src/connection/message/mod.rs`   (Message, MessageBody, MessageParams)
  - `src/connection/message/reply.rs` (ReplyType)
  - `src/connection/message/command.rs` (Command)
  - `src/connection/entity/mod.rs`    (Recipient, Sender)
  - `src/connection/entity/user.rs`   (Nickname, Username)
  - `src/connection/entity/server.rs` (Host, Hostname, Servername)
  - `src/connection/types/channel.rs` (Channel and friends; the module tree
    references `entity/channel.rs`, which is absent from the tree — the
    `types/` draft is the only copy of this code in the repository)
  - `src/connection/types/target_mask.rs` (TargetMask, HostMask, ServerMask;
    same situation as channel.rs)
  - `src/connection/types/stats_query.rs` (StatsQuery)
  - `src/connection/syntax/keyword_list.rs` (KeywordList)
Calls into the Rust standard library (`u8`/`u16::from_str`,
`IpAddr::from_str`, `Display` for IP addresses) are modelled after the
standard library's documented behaviour.
-/

/-- Strings are embedded as lists of characters.  All the byte-indexed
slicing in the Rust source happens at ASCII boundaries (spaces, `:`,
`!`, `@`, `%`, `.`), so character-level splitting is faithful. -/
abbrev Str := List Char

/-- `ParseError` from `types/errors.rs`: carries only the name of the
component that refused the input. -/
structure ParseError where
  component : String
deriving DecidableEq, Repr

instance {ε α : Type} [DecidableEq ε] [DecidableEq α] : DecidableEq (Except ε α) := fun x y =>
  match x, y with
  | .ok a, .ok b =>
    if h : a = b then .isTrue (by rw [h]) else .isFalse (fun he => h (by cases he; rfl))
  | .error a, .error b =>
    if h : a = b then .isTrue (by rw [h]) else .isFalse (fun he => h (by cases he; rfl))
  | .ok _, .error _ => .isFalse (fun he => by cases he)
  | .error _, .ok _ => .isFalse (fun he => by cases he)

/-- UTF-8 length of one scalar value, as Rust's `str::len` counts it. -/
def charUtf8Size (c : Char) : Nat :=
  if c.toNat < 0x80 then 1
  else if c.toNat < 0x800 then 2
  else if c.toNat < 0x10000 then 3
  else 4

/-- Rust's `str::len`: the UTF-8 byte length. -/
def utf8Len (s : Str) : Nat := (s.map charUtf8Size).sum

/-- Rust's `str::is_ascii`. -/
def isAsciiStr (s : Str) : Bool := s.all (fun c => c.toNat ≤ 0x7f)

/-- Split off everything before the first space; the second component is
the remainder after that space (`none` when there is no space). -/
def splitFirstSpace : Str → Str × Option Str
  | [] => ([], none)
  | c :: t =>
    if c = ' ' then ([], some t)
    else
      let r := splitFirstSpace t
      (c :: r.1, r.2)

theorem splitFirstSpace_none {s tok : Str} (h : splitFirstSpace s = (tok, none)) :
    tok = s ∧ ' ' ∉ s := by
  induction s generalizing tok with
  | nil => simp [splitFirstSpace] at h; simp [h]
  | cons c t ih =>
    by_cases hc : c = ' '
    · simp [splitFirstSpace, hc] at h
    · simp [splitFirstSpace, hc] at h
      obtain ⟨h1, h2⟩ := h
      obtain ⟨ht, hm⟩ := ih (by rw [← h2])
      subst h1
      exact ⟨by rw [ht], by simp [hc, Ne.symm hc, hm]⟩

theorem splitFirstSpace_some {s tok rest : Str}
    (h : splitFirstSpace s = (tok, some rest)) :
    s = tok ++ ' ' :: rest ∧ ' ' ∉ tok := by
  induction s generalizing tok rest with
  | nil => simp [splitFirstSpace] at h
  | cons c t ih =>
    by_cases hc : c = ' '
    · simp [splitFirstSpace, hc] at h
      obtain ⟨h1, h2⟩ := h
      subst h1; subst h2; simp [hc]
    · simp [splitFirstSpace, hc] at h
      obtain ⟨h1, h2⟩ := h
      obtain ⟨ht, hm⟩ := ih (by rw [← h2])
      subst h1
      refine ⟨?_, by simp [hm]; exact fun hcc => hc hcc.symm⟩
      rw [List.cons_append]
      exact congrArg (c :: ·) ht

theorem splitFirstSpace_rest_lt {s tok rest : Str}
    (h : splitFirstSpace s = (tok, some rest)) : rest.length < s.length := by
  have := (splitFirstSpace_some h).1
  subst this
  simp
  omega

/-- Strip a single leading `:` if present (`&raw[start + 1..]` in the
source's trailing-parameter handling). -/
def stripColon : Str → Str
  | ':' :: t => t
  | s => s

/-- The parameter container from `message/mod.rs`. -/
structure MessageParams where
  args : List Str
  has_space : Bool
deriving DecidableEq, Repr

namespace MessageParams

/-- `MessageParams::new`. -/
def new : MessageParams := { args := [], has_space := false }

/-- `MessageParams::push`.  The Rust method mutates `self` and returns
`Result<(), ParseError>`; here the new state is returned alongside the
optional error, the state being unchanged exactly when the error fires. -/
def push (self : MessageParams) (value : Str) : MessageParams × Option ParseError :=
  if 15 ≤ self.args.length ∨ self.has_space = true then
    (self, some ⟨"MessageParams"⟩)
  else
    ({ args := self.args ++ [value],
       has_space := if ' ' ∈ value then true else self.has_space }, none)

/-- The loop of `MessageParams::from_str`: `args` accumulates parameters,
the remainder of the input is walked space by space.  At the start of the
remainder (position 0 or just after a space) the source checks for a
leading `:` or for 14 accumulated parameters; in either case the rest of
the input, with one leading `:` stripped, is the final parameter.  Each
step consumes at least one character, so `fuel` bounds the recursion
structurally; `fromStr` supplies `length + 1`, which is never
exhausted. -/
def fromStrGo : Nat → Str → List Str → List Str
  | 0, _, args => args
  | _ + 1, [], args => args
  | fuel + 1, c :: t, args =>
    if c = ':' ∨ 14 ≤ args.length then args ++ [stripColon (c :: t)]
    else
      match splitFirstSpace (c :: t) with
      | (tok, none) => args ++ [tok]
      | (tok, some rest) => fromStrGo fuel rest (if tok = [] then args else args ++ [tok])

/-- `MessageParams::from_str` (always `Ok`, as in the source). -/
def fromStr (raw : Str) : Except ParseError MessageParams :=
  let args := fromStrGo (raw.length + 1) raw []
  .ok { args, has_space := (args.getLast?.map (fun s => decide (' ' ∈ s))).getD false }

/-- One iteration of the rendering loop in `From<MessageParams> for
String`: the accumulated text plus the `last_elment_is_empty` flag. -/
def renderStep (acc : Str × Bool) (arg : Str) : Str × Bool :=
  let r := acc.1
  let r := if r = [] then r else r ++ [' ']
  let r := if ' ' ∈ arg then r ++ [':'] else r
  if arg = [] then (r ++ ['*'], true) else (r ++ arg, false)

/-- `From<MessageParams> for String`. -/
def render (mp : MessageParams) : Str :=
  let p := mp.args.foldl renderStep ([], false)
  if p.2 then p.1.dropLast ++ [':'] else p.1

/-- `MessageParams::to_string_with_prefix`. -/
def toStringWithVerb (self : MessageParams) (verb : Str) : Str :=
  verb ++ ' ' :: self.render

/-- `From<Vec<String>> for MessageParams` pushes every element and
`unwrap`s each result; `none` models the panic on a failed push. -/
def fromVecGo : MessageParams → List Str → Option MessageParams
  | mp, [] => some mp
  | mp, v :: t =>
    match mp.push v with
    | (mp', none) => fromVecGo mp' t
    | (_, some _) => none

def fromVec (original : List Str) : Option MessageParams :=
  fromVecGo new original

end MessageParams
/-- The numeric reply enumeration from `message/reply.rs`.  The three
`Unknown` buckets carry the raw numeric code. -/
inductive ReplyType where
  | PrvWelcome
  | PrvYourHost
  | PrvCreated
  | PrvMyInfo
  | PrvBounce
  | PrvUnknown (code : Nat)
  | RplUserHost
  | RplIsOn
  | RplAway
  | RplUnAway
  | RplNowAway
  | RplWhoIsUser
  | RplWhoIsServer
  | RplWhoIsOperator
  | RplWhoIsIdle
  | RplEndOfWhoIs
  | RplWhoIsChannels
  | RplWhoWasUser
  | RplEndOfWhoWas
  | RplListStart
  | RplList
  | RplListEnd
  | RplUniqOpIs
  | RplChannelModeIs
  | RplNoTopic
  | RplTopic
  | RplInviting
  | RplSummoning
  | RplInviteList
  | RplEndOfInviteList
  | RplExceptList
  | RplEndOfExceptList
  | RplVersion
  | RplWhoReply
  | RplEndOfWho
  | RplNamReply
  | RplEndOfNames
  | RplLinks
  | RplEndOfLinks
  | RplBanList
  | RplEndOfBanList
  | RplInfo
  | RplEndOfInfo
  | RplMotdStart
  | RplMotd
  | RplEndOfMotd
  | RplYoureOper
  | RplRehashing
  | RplYoureService
  | RplTime
  | RplUsersStart
  | RplUsers
  | RplEndOfUsers
  | RplNoUsers
  | RplTraceLink
  | RplTraceConnecting
  | RplTraceHandshake
  | RplTraceUnknown
  | RplTraceOperator
  | RplTraceUser
  | RplTraceServer
  | RplTraceService
  | RplTraceNewType
  | RplTraceClass
  | RplTraceReconnect
  | RplTraceLog
  | RplTraceEnd
  | RplStatsLinkInfo
  | RplStatsCommands
  | RplEndOfStats
  | RplStatsUptime
  | RplStatsOLine
  | RplUModeIs
  | RplServList
  | RplServListEnd
  | RplLUserClient
  | RplLUserOp
  | RplLUserUnknown
  | RplLUserChannels
  | RplLUserMe
  | RplAdminMe
  | RplAdminLoc1
  | RplAdminLoc2
  | RplAdminEmail
  | RplTryAgain
  | RplUnknown (code : Nat)
  | ErrNoSuchNick
  | ErrNoSuchServer
  | ErrNoSuchChannel
  | ErrCannotSendToChan
  | ErrTooManyChannels
  | ErrWasNoSuchNick
  | ErrTooManyTargets
  | ErrNoSuchService
  | ErrNoOrigin
  | ErrNoRecipient
  | ErrNoTextToSend
  | ErrNoTopLevel
  | ErrWildTopLevel
  | ErrBadMask
  | ErrUnknownCommand
  | ErrNoMotd
  | ErrNoAdminInfo
  | ErrFileError
  | ErrNoNicknameGiven
  | ErrErroneusNickname
  | ErrNicknameInUse
  | ErrNickCollision
  | ErrUnavailResource
  | ErrUserNotInChannel
  | ErrNotOnChannel
  | ErrUserOnChannel
  | ErrNoLogin
  | ErrSummonDisabled
  | ErrUsersDisabled
  | ErrNotRegistered
  | ErrNeedMoreParams
  | ErrAlreadyRegistred
  | ErrNoPermForHost
  | ErrPasswdMismatch
  | ErrYoureBannedCreep
  | ErrYouWillBeBanned
  | ErrKeySet
  | ErrChannelIsFull
  | ErrUnknownMode
  | ErrInviteOnlyChan
  | ErrBannedFromChan
  | ErrBadChannelKey
  | ErrBadChanMask
  | ErrNoChanModes
  | ErrBanListFull
  | ErrNoPrivileges
  | ErrChanOPrivsNeeded
  | ErrCantKillServer
  | ErrRestricted
  | ErrUniqOpPrivsNeeded
  | ErrNoOperHost
  | ErrUModeUnknownFlag
  | ErrUsersDontMatch
  | ErrUnknown (code : Nat)

/-- Constructor index, used for the hand-rolled decidable equality
(the enum is too large for the derive handler). -/
def ReplyType.ctorIdx : ReplyType → Nat
  | .PrvWelcome => 0
  | .PrvYourHost => 1
  | .PrvCreated => 2
  | .PrvMyInfo => 3
  | .PrvBounce => 4
  | .PrvUnknown _ => 5
  | .RplUserHost => 6
  | .RplIsOn => 7
  | .RplAway => 8
  | .RplUnAway => 9
  | .RplNowAway => 10
  | .RplWhoIsUser => 11
  | .RplWhoIsServer => 12
  | .RplWhoIsOperator => 13
  | .RplWhoIsIdle => 14
  | .RplEndOfWhoIs => 15
  | .RplWhoIsChannels => 16
  | .RplWhoWasUser => 17
  | .RplEndOfWhoWas => 18
  | .RplListStart => 19
  | .RplList => 20
  | .RplListEnd => 21
  | .RplUniqOpIs => 22
  | .RplChannelModeIs => 23
  | .RplNoTopic => 24
  | .RplTopic => 25
  | .RplInviting => 26
  | .RplSummoning => 27
  | .RplInviteList => 28
  | .RplEndOfInviteList => 29
  | .RplExceptList => 30
  | .RplEndOfExceptList => 31
  | .RplVersion => 32
  | .RplWhoReply => 33
  | .RplEndOfWho => 34
  | .RplNamReply => 35
  | .RplEndOfNames => 36
  | .RplLinks => 37
  | .RplEndOfLinks => 38
  | .RplBanList => 39
  | .RplEndOfBanList => 40
  | .RplInfo => 41
  | .RplEndOfInfo => 42
  | .RplMotdStart => 43
  | .RplMotd => 44
  | .RplEndOfMotd => 45
  | .RplYoureOper => 46
  | .RplRehashing => 47
  | .RplYoureService => 48
  | .RplTime => 49
  | .RplUsersStart => 50
  | .RplUsers => 51
  | .RplEndOfUsers => 52
  | .RplNoUsers => 53
  | .RplTraceLink => 54
  | .RplTraceConnecting => 55
  | .RplTraceHandshake => 56
  | .RplTraceUnknown => 57
  | .RplTraceOperator => 58
  | .RplTraceUser => 59
  | .RplTraceServer => 60
  | .RplTraceService => 61
  | .RplTraceNewType => 62
  | .RplTraceClass => 63
  | .RplTraceReconnect => 64
  | .RplTraceLog => 65
  | .RplTraceEnd => 66
  | .RplStatsLinkInfo => 67
  | .RplStatsCommands => 68
  | .RplEndOfStats => 69
  | .RplStatsUptime => 70
  | .RplStatsOLine => 71
  | .RplUModeIs => 72
  | .RplServList => 73
  | .RplServListEnd => 74
  | .RplLUserClient => 75
  | .RplLUserOp => 76
  | .RplLUserUnknown => 77
  | .RplLUserChannels => 78
  | .RplLUserMe => 79
  | .RplAdminMe => 80
  | .RplAdminLoc1 => 81
  | .RplAdminLoc2 => 82
  | .RplAdminEmail => 83
  | .RplTryAgain => 84
  | .RplUnknown _ => 85
  | .ErrNoSuchNick => 86
  | .ErrNoSuchServer => 87
  | .ErrNoSuchChannel => 88
  | .ErrCannotSendToChan => 89
  | .ErrTooManyChannels => 90
  | .ErrWasNoSuchNick => 91
  | .ErrTooManyTargets => 92
  | .ErrNoSuchService => 93
  | .ErrNoOrigin => 94
  | .ErrNoRecipient => 95
  | .ErrNoTextToSend => 96
  | .ErrNoTopLevel => 97
  | .ErrWildTopLevel => 98
  | .ErrBadMask => 99
  | .ErrUnknownCommand => 100
  | .ErrNoMotd => 101
  | .ErrNoAdminInfo => 102
  | .ErrFileError => 103
  | .ErrNoNicknameGiven => 104
  | .ErrErroneusNickname => 105
  | .ErrNicknameInUse => 106
  | .ErrNickCollision => 107
  | .ErrUnavailResource => 108
  | .ErrUserNotInChannel => 109
  | .ErrNotOnChannel => 110
  | .ErrUserOnChannel => 111
  | .ErrNoLogin => 112
  | .ErrSummonDisabled => 113
  | .ErrUsersDisabled => 114
  | .ErrNotRegistered => 115
  | .ErrNeedMoreParams => 116
  | .ErrAlreadyRegistred => 117
  | .ErrNoPermForHost => 118
  | .ErrPasswdMismatch => 119
  | .ErrYoureBannedCreep => 120
  | .ErrYouWillBeBanned => 121
  | .ErrKeySet => 122
  | .ErrChannelIsFull => 123
  | .ErrUnknownMode => 124
  | .ErrInviteOnlyChan => 125
  | .ErrBannedFromChan => 126
  | .ErrBadChannelKey => 127
  | .ErrBadChanMask => 128
  | .ErrNoChanModes => 129
  | .ErrBanListFull => 130
  | .ErrNoPrivileges => 131
  | .ErrChanOPrivsNeeded => 132
  | .ErrCantKillServer => 133
  | .ErrRestricted => 134
  | .ErrUniqOpPrivsNeeded => 135
  | .ErrNoOperHost => 136
  | .ErrUModeUnknownFlag => 137
  | .ErrUsersDontMatch => 138
  | .ErrUnknown _ => 139

def ReplyType.payload : ReplyType → Nat
  | .PrvUnknown c => c
  | .RplUnknown c => c
  | .ErrUnknown c => c
  | _ => 0

/-- All variants in declaration order, the payload-carrying ones with a
zero payload. -/
def ReplyType.allCtors0 : List ReplyType :=
  [.PrvWelcome, .PrvYourHost, .PrvCreated, .PrvMyInfo, .PrvBounce, .PrvUnknown 0, .RplUserHost, .RplIsOn, .RplAway, .RplUnAway, .RplNowAway, .RplWhoIsUser, .RplWhoIsServer, .RplWhoIsOperator, .RplWhoIsIdle, .RplEndOfWhoIs, .RplWhoIsChannels, .RplWhoWasUser, .RplEndOfWhoWas, .RplListStart]

def ReplyType.allCtors1 : List ReplyType :=
  [.RplList, .RplListEnd, .RplUniqOpIs, .RplChannelModeIs, .RplNoTopic, .RplTopic, .RplInviting, .RplSummoning, .RplInviteList, .RplEndOfInviteList, .RplExceptList, .RplEndOfExceptList, .RplVersion, .RplWhoReply, .RplEndOfWho, .RplNamReply, .RplEndOfNames, .RplLinks, .RplEndOfLinks, .RplBanList]

def ReplyType.allCtors2 : List ReplyType :=
  [.RplEndOfBanList, .RplInfo, .RplEndOfInfo, .RplMotdStart, .RplMotd, .RplEndOfMotd, .RplYoureOper, .RplRehashing, .RplYoureService, .RplTime, .RplUsersStart, .RplUsers, .RplEndOfUsers, .RplNoUsers, .RplTraceLink, .RplTraceConnecting, .RplTraceHandshake, .RplTraceUnknown, .RplTraceOperator, .RplTraceUser]

def ReplyType.allCtors3 : List ReplyType :=
  [.RplTraceServer, .RplTraceService, .RplTraceNewType, .RplTraceClass, .RplTraceReconnect, .RplTraceLog, .RplTraceEnd, .RplStatsLinkInfo, .RplStatsCommands, .RplEndOfStats, .RplStatsUptime, .RplStatsOLine, .RplUModeIs, .RplServList, .RplServListEnd, .RplLUserClient, .RplLUserOp, .RplLUserUnknown, .RplLUserChannels, .RplLUserMe]

def ReplyType.allCtors4 : List ReplyType :=
  [.RplAdminMe, .RplAdminLoc1, .RplAdminLoc2, .RplAdminEmail, .RplTryAgain, .RplUnknown 0, .ErrNoSuchNick, .ErrNoSuchServer, .ErrNoSuchChannel, .ErrCannotSendToChan, .ErrTooManyChannels, .ErrWasNoSuchNick, .ErrTooManyTargets, .ErrNoSuchService, .ErrNoOrigin, .ErrNoRecipient, .ErrNoTextToSend, .ErrNoTopLevel, .ErrWildTopLevel, .ErrBadMask]

def ReplyType.allCtors5 : List ReplyType :=
  [.ErrUnknownCommand, .ErrNoMotd, .ErrNoAdminInfo, .ErrFileError, .ErrNoNicknameGiven, .ErrErroneusNickname, .ErrNicknameInUse, .ErrNickCollision, .ErrUnavailResource, .ErrUserNotInChannel, .ErrNotOnChannel, .ErrUserOnChannel, .ErrNoLogin, .ErrSummonDisabled, .ErrUsersDisabled, .ErrNotRegistered, .ErrNeedMoreParams, .ErrAlreadyRegistred, .ErrNoPermForHost, .ErrPasswdMismatch]

def ReplyType.allCtors6 : List ReplyType :=
  [.ErrYoureBannedCreep, .ErrYouWillBeBanned, .ErrKeySet, .ErrChannelIsFull, .ErrUnknownMode, .ErrInviteOnlyChan, .ErrBannedFromChan, .ErrBadChannelKey, .ErrBadChanMask, .ErrNoChanModes, .ErrBanListFull, .ErrNoPrivileges, .ErrChanOPrivsNeeded, .ErrCantKillServer, .ErrRestricted, .ErrUniqOpPrivsNeeded, .ErrNoOperHost, .ErrUModeUnknownFlag, .ErrUsersDontMatch, .ErrUnknown 0]

/-- All variants in declaration order, the payload-carrying ones with a
zero payload. -/
def ReplyType.allCtors : List ReplyType :=
  ReplyType.allCtors0 ++ ReplyType.allCtors1 ++ ReplyType.allCtors2 ++ ReplyType.allCtors3 ++ ReplyType.allCtors4 ++ ReplyType.allCtors5 ++ ReplyType.allCtors6

def ReplyType.ofIdx (i p : Nat) : ReplyType :=
  if i = 5 then .PrvUnknown p
  else if i = 85 then .RplUnknown p
  else if i = 139 then .ErrUnknown p
  else ReplyType.allCtors.getD i ReplyType.PrvWelcome

theorem ReplyType.ofIdx_ctorIdx : ∀ r : ReplyType, ReplyType.ofIdx r.ctorIdx r.payload = r := by
  intro r; cases r <;> rfl

instance : DecidableEq ReplyType := fun a b =>
  if h : a.ctorIdx = b.ctorIdx ∧ a.payload = b.payload then
    .isTrue (by
      rw [← ReplyType.ofIdx_ctorIdx a, ← ReplyType.ofIdx_ctorIdx b, h.1, h.2])
  else .isFalse (fun he => h (by subst he; exact ⟨rfl, rfl⟩))

instance : Repr ReplyType :=
  ⟨fun r _ => repr (r.ctorIdx, r.payload)⟩


namespace ReplyType

/-- Modelled from the Rust standard library: `u16::from_str` (and, with a
different bound, `u8::from_str`).  An optional leading `+` is accepted, a
leading `-` is rejected for unsigned types, the digits accumulate in base
10, and any intermediate value above `max` is an overflow error. -/
def rustParseUIntGo (max : Nat) : Str → Nat → Option Nat
  | [], acc => some acc
  | c :: t, acc =>
    if c.isDigit then
      let acc' := acc * 10 + (c.toNat - 48)
      if acc' ≤ max then rustParseUIntGo max t acc' else none
    else none

/-- Digit-run part of the standard library's integer parser: at least one
digit is required. -/
def rustParseUIntDigits (max : Nat) (s : Str) : Option Nat :=
  if s = [] then none else rustParseUIntGo max s 0

def rustParseUInt (max : Nat) : Str → Option Nat
  | [] => none
  | c :: rest =>
    if c = '+' then rustParseUIntDigits max rest
    else if c = '-' then none
    else rustParseUIntDigits max (c :: rest)

set_option maxRecDepth 8192 in
/-- The `match` on the parsed `u16` inside `ReplyType::from_str`, embedded
as an ordered chain of comparisons: named arms first, then the three range
arms `0..=99`, `200..=399`, `400..=599`, then the error fallthrough. -/
def ofCode (n : Nat) : Except ParseError ReplyType :=
  if n = 1 then .ok .PrvWelcome
  else if n = 2 then .ok .PrvYourHost
  else if n = 3 then .ok .PrvCreated
  else if n = 4 then .ok .PrvMyInfo
  else if n = 5 then .ok .PrvBounce
  else if n = 200 then .ok .RplTraceLink
  else if n = 201 then .ok .RplTraceConnecting
  else if n = 202 then .ok .RplTraceHandshake
  else if n = 203 then .ok .RplTraceUnknown
  else if n = 204 then .ok .RplTraceOperator
  else if n = 205 then .ok .RplTraceUser
  else if n = 206 then .ok .RplTraceServer
  else if n = 207 then .ok .RplTraceService
  else if n = 208 then .ok .RplTraceNewType
  else if n = 209 then .ok .RplTraceClass
  else if n = 210 then .ok .RplTraceReconnect
  else if n = 211 then .ok .RplStatsLinkInfo
  else if n = 212 then .ok .RplStatsCommands
  else if n = 219 then .ok .RplEndOfStats
  else if n = 221 then .ok .RplUModeIs
  else if n = 234 then .ok .RplServList
  else if n = 235 then .ok .RplServListEnd
  else if n = 242 then .ok .RplStatsUptime
  else if n = 243 then .ok .RplStatsOLine
  else if n = 251 then .ok .RplLUserClient
  else if n = 252 then .ok .RplLUserOp
  else if n = 253 then .ok .RplLUserUnknown
  else if n = 254 then .ok .RplLUserChannels
  else if n = 255 then .ok .RplLUserMe
  else if n = 256 then .ok .RplAdminMe
  else if n = 257 then .ok .RplAdminLoc1
  else if n = 258 then .ok .RplAdminLoc2
  else if n = 259 then .ok .RplAdminEmail
  else if n = 261 then .ok .RplTraceLog
  else if n = 262 then .ok .RplTraceEnd
  else if n = 263 then .ok .RplTryAgain
  else if n = 301 then .ok .RplAway
  else if n = 302 then .ok .RplUserHost
  else if n = 303 then .ok .RplIsOn
  else if n = 305 then .ok .RplUnAway
  else if n = 306 then .ok .RplNowAway
  else if n = 311 then .ok .RplWhoIsUser
  else if n = 312 then .ok .RplWhoIsServer
  else if n = 313 then .ok .RplWhoIsOperator
  else if n = 314 then .ok .RplWhoWasUser
  else if n = 315 then .ok .RplEndOfWho
  else if n = 317 then .ok .RplWhoIsIdle
  else if n = 318 then .ok .RplEndOfWhoIs
  else if n = 319 then .ok .RplWhoIsChannels
  else if n = 321 then .ok .RplListStart
  else if n = 322 then .ok .RplList
  else if n = 323 then .ok .RplListEnd
  else if n = 324 then .ok .RplChannelModeIs
  else if n = 325 then .ok .RplUniqOpIs
  else if n = 331 then .ok .RplNoTopic
  else if n = 332 then .ok .RplTopic
  else if n = 341 then .ok .RplInviting
  else if n = 342 then .ok .RplSummoning
  else if n = 346 then .ok .RplInviteList
  else if n = 347 then .ok .RplEndOfInviteList
  else if n = 348 then .ok .RplExceptList
  else if n = 349 then .ok .RplEndOfExceptList
  else if n = 351 then .ok .RplVersion
  else if n = 352 then .ok .RplWhoReply
  else if n = 353 then .ok .RplNamReply
  else if n = 364 then .ok .RplLinks
  else if n = 365 then .ok .RplEndOfLinks
  else if n = 366 then .ok .RplEndOfNames
  else if n = 367 then .ok .RplBanList
  else if n = 368 then .ok .RplEndOfBanList
  else if n = 369 then .ok .RplEndOfWhoWas
  else if n = 371 then .ok .RplInfo
  else if n = 372 then .ok .RplMotd
  else if n = 374 then .ok .RplEndOfInfo
  else if n = 375 then .ok .RplMotdStart
  else if n = 376 then .ok .RplEndOfMotd
  else if n = 381 then .ok .RplYoureOper
  else if n = 382 then .ok .RplRehashing
  else if n = 383 then .ok .RplYoureService
  else if n = 391 then .ok .RplTime
  else if n = 392 then .ok .RplUsersStart
  else if n = 393 then .ok .RplUsers
  else if n = 394 then .ok .RplEndOfUsers
  else if n = 395 then .ok .RplNoUsers
  else if n = 401 then .ok .ErrNoSuchNick
  else if n = 402 then .ok .ErrNoSuchServer
  else if n = 403 then .ok .ErrNoSuchChannel
  else if n = 404 then .ok .ErrCannotSendToChan
  else if n = 405 then .ok .ErrTooManyChannels
  else if n = 406 then .ok .ErrWasNoSuchNick
  else if n = 407 then .ok .ErrTooManyTargets
  else if n = 408 then .ok .ErrNoSuchService
  else if n = 409 then .ok .ErrNoOrigin
  else if n = 411 then .ok .ErrNoRecipient
  else if n = 412 then .ok .ErrNoTextToSend
  else if n = 413 then .ok .ErrNoTopLevel
  else if n = 414 then .ok .ErrWildTopLevel
  else if n = 415 then .ok .ErrBadMask
  else if n = 421 then .ok .ErrUnknownCommand
  else if n = 422 then .ok .ErrNoMotd
  else if n = 423 then .ok .ErrNoAdminInfo
  else if n = 424 then .ok .ErrFileError
  else if n = 431 then .ok .ErrNoNicknameGiven
  else if n = 432 then .ok .ErrErroneusNickname
  else if n = 433 then .ok .ErrNicknameInUse
  else if n = 436 then .ok .ErrNickCollision
  else if n = 437 then .ok .ErrUnavailResource
  else if n = 441 then .ok .ErrUserNotInChannel
  else if n = 442 then .ok .ErrNotOnChannel
  else if n = 443 then .ok .ErrUserOnChannel
  else if n = 444 then .ok .ErrNoLogin
  else if n = 445 then .ok .ErrSummonDisabled
  else if n = 446 then .ok .ErrUsersDisabled
  else if n = 451 then .ok .ErrNotRegistered
  else if n = 461 then .ok .ErrNeedMoreParams
  else if n = 462 then .ok .ErrAlreadyRegistred
  else if n = 463 then .ok .ErrNoPermForHost
  else if n = 464 then .ok .ErrPasswdMismatch
  else if n = 465 then .ok .ErrYoureBannedCreep
  else if n = 466 then .ok .ErrYouWillBeBanned
  else if n = 467 then .ok .ErrKeySet
  else if n = 471 then .ok .ErrChannelIsFull
  else if n = 472 then .ok .ErrUnknownMode
  else if n = 473 then .ok .ErrInviteOnlyChan
  else if n = 474 then .ok .ErrBannedFromChan
  else if n = 475 then .ok .ErrBadChannelKey
  else if n = 476 then .ok .ErrBadChanMask
  else if n = 477 then .ok .ErrNoChanModes
  else if n = 478 then .ok .ErrBanListFull
  else if n = 481 then .ok .ErrNoPrivileges
  else if n = 482 then .ok .ErrChanOPrivsNeeded
  else if n = 483 then .ok .ErrCantKillServer
  else if n = 484 then .ok .ErrRestricted
  else if n = 485 then .ok .ErrUniqOpPrivsNeeded
  else if n = 491 then .ok .ErrNoOperHost
  else if n = 501 then .ok .ErrUModeUnknownFlag
  else if n = 502 then .ok .ErrUsersDontMatch
  else if n ≤ 99 then .ok (.PrvUnknown n)
  else if 200 ≤ n ∧ n ≤ 399 then .ok (.RplUnknown n)
  else if 400 ≤ n ∧ n ≤ 599 then .ok (.ErrUnknown n)
  else .error ⟨"ReplyType"⟩

/-- `ReplyType::from_str`. -/
def fromStr (raw : Str) : Except ParseError ReplyType :=
  if utf8Len raw ≠ 3 ∨ isAsciiStr raw = false then
    .error ⟨"ReplyType"⟩
  else
    match rustParseUInt 65535 raw with
    | none => .error ⟨"ReplyType"⟩
    | some n => ofCode n

/-- The numeric code emitted for each variant by `From<ReplyType> for
String`. -/
def code : ReplyType → Nat
  | .PrvWelcome => 1
  | .PrvYourHost => 2
  | .PrvCreated => 3
  | .PrvMyInfo => 4
  | .PrvBounce => 5
  | .RplUserHost => 302
  | .RplIsOn => 303
  | .RplAway => 301
  | .RplUnAway => 305
  | .RplNowAway => 306
  | .RplWhoIsUser => 311
  | .RplWhoIsServer => 312
  | .RplWhoIsOperator => 313
  | .RplWhoIsIdle => 317
  | .RplEndOfWhoIs => 318
  | .RplWhoIsChannels => 319
  | .RplWhoWasUser => 314
  | .RplEndOfWhoWas => 369
  | .RplListStart => 321
  | .RplList => 322
  | .RplListEnd => 323
  | .RplUniqOpIs => 325
  | .RplChannelModeIs => 324
  | .RplNoTopic => 331
  | .RplTopic => 332
  | .RplInviting => 341
  | .RplSummoning => 342
  | .RplInviteList => 346
  | .RplEndOfInviteList => 347
  | .RplExceptList => 348
  | .RplEndOfExceptList => 349
  | .RplVersion => 351
  | .RplWhoReply => 352
  | .RplEndOfWho => 315
  | .RplNamReply => 353
  | .RplEndOfNames => 366
  | .RplLinks => 364
  | .RplEndOfLinks => 365
  | .RplBanList => 367
  | .RplEndOfBanList => 368
  | .RplInfo => 371
  | .RplEndOfInfo => 374
  | .RplMotdStart => 375
  | .RplMotd => 372
  | .RplEndOfMotd => 376
  | .RplYoureOper => 381
  | .RplRehashing => 382
  | .RplYoureService => 383
  | .RplTime => 391
  | .RplUsersStart => 392
  | .RplUsers => 393
  | .RplEndOfUsers => 394
  | .RplNoUsers => 395
  | .RplTraceLink => 200
  | .RplTraceConnecting => 201
  | .RplTraceHandshake => 202
  | .RplTraceUnknown => 203
  | .RplTraceOperator => 204
  | .RplTraceUser => 205
  | .RplTraceServer => 206
  | .RplTraceService => 207
  | .RplTraceNewType => 208
  | .RplTraceClass => 209
  | .RplTraceReconnect => 210
  | .RplTraceLog => 261
  | .RplTraceEnd => 262
  | .RplStatsLinkInfo => 211
  | .RplStatsCommands => 212
  | .RplEndOfStats => 219
  | .RplStatsUptime => 242
  | .RplStatsOLine => 243
  | .RplUModeIs => 221
  | .RplServList => 234
  | .RplServListEnd => 235
  | .RplLUserClient => 251
  | .RplLUserOp => 252
  | .RplLUserUnknown => 253
  | .RplLUserChannels => 254
  | .RplLUserMe => 255
  | .RplAdminMe => 256
  | .RplAdminLoc1 => 257
  | .RplAdminLoc2 => 258
  | .RplAdminEmail => 259
  | .RplTryAgain => 263
  | .ErrNoSuchNick => 401
  | .ErrNoSuchServer => 402
  | .ErrNoSuchChannel => 403
  | .ErrCannotSendToChan => 404
  | .ErrTooManyChannels => 405
  | .ErrWasNoSuchNick => 406
  | .ErrTooManyTargets => 407
  | .ErrNoSuchService => 408
  | .ErrNoOrigin => 409
  | .ErrNoRecipient => 411
  | .ErrNoTextToSend => 412
  | .ErrNoTopLevel => 413
  | .ErrWildTopLevel => 414
  | .ErrBadMask => 415
  | .ErrUnknownCommand => 421
  | .ErrNoMotd => 422
  | .ErrNoAdminInfo => 423
  | .ErrFileError => 424
  | .ErrNoNicknameGiven => 431
  | .ErrErroneusNickname => 432
  | .ErrNicknameInUse => 433
  | .ErrNickCollision => 436
  | .ErrUnavailResource => 437
  | .ErrUserNotInChannel => 441
  | .ErrNotOnChannel => 442
  | .ErrUserOnChannel => 443
  | .ErrNoLogin => 444
  | .ErrSummonDisabled => 445
  | .ErrUsersDisabled => 446
  | .ErrNotRegistered => 451
  | .ErrNeedMoreParams => 461
  | .ErrAlreadyRegistred => 462
  | .ErrNoPermForHost => 463
  | .ErrPasswdMismatch => 464
  | .ErrYoureBannedCreep => 465
  | .ErrYouWillBeBanned => 466
  | .ErrKeySet => 467
  | .ErrChannelIsFull => 471
  | .ErrUnknownMode => 472
  | .ErrInviteOnlyChan => 473
  | .ErrBannedFromChan => 474
  | .ErrBadChannelKey => 475
  | .ErrBadChanMask => 476
  | .ErrNoChanModes => 477
  | .ErrBanListFull => 478
  | .ErrNoPrivileges => 481
  | .ErrChanOPrivsNeeded => 482
  | .ErrCantKillServer => 483
  | .ErrRestricted => 484
  | .ErrUniqOpPrivsNeeded => 485
  | .ErrNoOperHost => 491
  | .ErrUModeUnknownFlag => 501
  | .ErrUsersDontMatch => 502
  | .PrvUnknown c => c
  | .RplUnknown c => c
  | .ErrUnknown c => c

/-- Zero-pad on the left to a minimum width of three characters
(`format!("{:0>3}", ..)`). -/
def pad3 (s : Str) : Str :=
  if s.length < 3 then List.replicate (3 - s.length) '0' ++ s else s

/-- `From<ReplyType> for String`. -/
def render (r : ReplyType) : Str :=
  pad3 (Nat.toDigits 10 r.code)

end ReplyType

/-! ## Entity grammar types -/

/-- Rust's `str::split(sep)` semantics: the empty string yields one empty
part, `n` separators yield `n + 1` parts. -/
def splitOnChar (sep : Char) : Str → List Str
  | [] => [[]]
  | c :: t =>
    if c = sep then [] :: splitOnChar sep t
    else
      match splitOnChar sep t with
      | h :: rest => (c :: h) :: rest
      | [] => [[c]]

/-- Rust's `str::split(&[c1, c2, ...])`: split on any of several
separator characters. -/
def splitOnAny (seps : List Char) : Str → List Str
  | [] => [[]]
  | c :: t =>
    if c ∈ seps then [] :: splitOnAny seps t
    else
      match splitOnAny seps t with
      | h :: rest => (c :: h) :: rest
      | [] => [[c]]

/-- Rust's `str::matches(&[c1, c2, ...]).collect::<String>()`: the
separator characters in order of occurrence. -/
def punctOf (seps : List Char) (s : Str) : Str :=
  s.filter (fun c => decide (c ∈ seps))

/-- Split at the first occurrence of `sep` (Rust `str::find` plus
slicing); `none` if the separator does not occur. -/
def splitFirst (sep : Char) : Str → Str × Option Str
  | [] => ([], none)
  | c :: t =>
    if c = sep then ([], some t)
    else
      let r := splitFirst sep t
      (c :: r.1, r.2)

/-- `Username` from `entity/user.rs`: non-empty, no NUL, CR, LF, space
or `@`. -/
structure Username where
  s : Str
deriving DecidableEq, Repr

def Username.fromStr (raw : Str) : Except ParseError Username :=
  if utf8Len raw < 1 ∨ raw.any (fun c => c ∈ ['\x00', '\r', '\n', ' ', '@']) then
    .error ⟨"Username"⟩
  else
    .ok ⟨raw⟩

def Username.render (u : Username) : Str := u.s

/-- First-character test in `Nickname::from_str`: the range
`'\x41'..='\x7d'` (letters plus the special characters). -/
def nickFirstOk (c : Char) : Bool := '\x41' ≤ c && c ≤ '\x7d'

/-- Remaining-character test in `Nickname::from_str`: `-`, digits, or
the `'\x41'..='\x7d'` range. -/
def nickRestOk (c : Char) : Bool :=
  c = '\x2d' || ('\x30' ≤ c && c ≤ '\x39') || ('\x41' ≤ c && c ≤ '\x7d')

/-- `Nickname` from `entity/user.rs`. -/
structure Nickname where
  s : Str
deriving DecidableEq, Repr

def Nickname.fromStr (raw : Str) : Except ParseError Nickname :=
  if utf8Len raw < 1 ∨ isAsciiStr raw = false then
    .error ⟨"Nickname"⟩
  else
    match raw with
    | [] => .error ⟨"Nickname"⟩
    | c :: rest =>
      if nickFirstOk c then
        if rest.any (fun c => !nickRestOk c) then .error ⟨"Nickname"⟩
        else .ok ⟨raw⟩
      else .error ⟨"Nickname"⟩

def Nickname.render (n : Nickname) : Str := n.s

/-- Per-label check inside `name_from_string` (`entity/server.rs`): the
label is non-empty, starts and ends with an ASCII alphanumeric, and
contains only alphanumerics, `-`, or `_`. -/
def namePartOk (part : Str) : Bool :=
  match part with
  | [] => false
  | c :: _ =>
    c.isAlphanum && ((part.getLast?.map Char.isAlphanum).getD false)
      && part.all (fun c => c.isAlphanum || c = '-' || c = '_')

/-- `name_from_string` from `entity/server.rs`. -/
def nameFromString (raw : Str) : Option Str :=
  if (splitOnChar '.' raw).all namePartOk then some raw else none

structure Hostname where
  s : Str
deriving DecidableEq, Repr

def Hostname.fromStr (raw : Str) : Except ParseError Hostname :=
  match nameFromString raw with
  | some s => .ok ⟨s⟩
  | none => .error ⟨"Hostname"⟩

def Hostname.render (h : Hostname) : Str := h.s

structure Servername where
  s : Str
deriving DecidableEq, Repr

def Servername.fromStr (raw : Str) : Except ParseError Servername :=
  match nameFromString raw with
  | some s => .ok ⟨s⟩
  | none => .error ⟨"Servername"⟩

def Servername.render (sn : Servername) : Str := sn.s

/-- Per-label check inside `mask_from_string`
(`types/target_mask.rs`). -/
def maskPartOk (part : Str) : Bool :=
  match part with
  | [] => false
  | c :: _ =>
    (c.isAlphanum || c = '*' || c = '?')
      && ((part.getLast?.map (fun c => c.isAlphanum || c = '*' || c = '?')).getD false)
      && part.all (fun c => c.isAlphanum || c = '*' || c = '?' || c = '-')

/-- `mask_from_string` from `types/target_mask.rs`. -/
def maskFromString (raw : Str) : Option Str :=
  if 2 < utf8Len raw ∧ isAsciiStr raw = true ∧ '.' ∈ raw
      ∧ ((splitOnChar '.' raw).getLast?.map
          (fun l => l.any (fun c => c = '*' ∨ c = '?'))).getD true = false then
    if (splitOnChar '.' raw).all maskPartOk then some raw else none
  else
    none

structure HostMask where
  s : Str
deriving DecidableEq, Repr

def HostMask.fromStr (raw : Str) : Except ParseError HostMask :=
  match maskFromString raw with
  | some s => .ok ⟨s⟩
  | none => .error ⟨"HostMask"⟩

def HostMask.render (m : HostMask) : Str := m.s

structure ServerMask where
  s : Str
deriving DecidableEq, Repr

def ServerMask.fromStr (raw : Str) : Except ParseError ServerMask :=
  match maskFromString raw with
  | some s => .ok ⟨s⟩
  | none => .error ⟨"ServerMask"⟩

def ServerMask.render (m : ServerMask) : Str := m.s

/-- `TargetMask` from `types/target_mask.rs`: `#` introduces a host
mask, `$` a server mask. -/
inductive TargetMask where
  | Host (m : HostMask)
  | Server (m : ServerMask)
deriving DecidableEq, Repr

def TargetMask.fromStr (raw : Str) : Except ParseError TargetMask :=
  match raw with
  | '#' :: rest => (HostMask.fromStr rest).map TargetMask.Host
  | '$' :: rest => (ServerMask.fromStr rest).map TargetMask.Server
  | _ => .error ⟨"TargetMask"⟩

def TargetMask.render : TargetMask → Str
  | .Host m => '#' :: m.render
  | .Server m => '$' :: m.render

/-- `StatsQuery` from `types/stats_query.rs`. -/
inductive StatsQuery where
  | List
  | UsageCount
  | Ops
  | Uptime
  | Unknown (c : Char)
deriving DecidableEq, Repr

def StatsQuery.fromStr (raw : Str) : Except ParseError StatsQuery :=
  if utf8Len raw = 1 then
    match raw.head? with
    | some 'l' => .ok .List
    | some 'm' => .ok .UsageCount
    | some 'o' => .ok .Ops
    | some 'u' => .ok .Uptime
    | some c => if c.isAlphanum then .ok (.Unknown c) else .error ⟨"StatsQuery"⟩
    | none => .error ⟨"StatsQuery"⟩
  else
    .error ⟨"StatsQuery"⟩

def StatsQuery.render : StatsQuery → Str
  | .List => ['l']
  | .UsageCount => ['m']
  | .Ops => ['o']
  | .Uptime => ['u']
  | .Unknown c => [c]

/-- `ChannelID` from `types/channel.rs`: exactly 5 characters, each
`A`–`Z` or `0`–`9`. -/
structure ChannelID where
  s : Str
deriving DecidableEq, Repr

def ChannelID.fromStr (raw : Str) : Except ParseError ChannelID :=
  if utf8Len raw ≠ 5 then .error ⟨"ChannelID"⟩
  else if raw.any (fun c => !c.isUpper && !c.isDigit) then .error ⟨"ChannelID"⟩
  else .ok ⟨raw⟩

def ChannelID.render (i : ChannelID) : Str := i.s

/-- `ChannelName` from `types/channel.rs`: non-empty, no NUL, BELL, CR,
LF, space, comma or colon. -/
structure ChannelName where
  s : Str
deriving DecidableEq, Repr

def ChannelName.fromStr (raw : Str) : Except ParseError ChannelName :=
  if utf8Len raw < 1 ∨ raw.any (fun c => c ∈ ['\x00', '\x07', '\r', '\n', ' ', ',', ':']) then
    .error ⟨"ChannelName"⟩
  else
    .ok ⟨raw⟩

def ChannelName.render (n : ChannelName) : Str := n.s

/-- `ChannelKey` from `types/channel.rs`. -/
structure ChannelKey where
  s : Str
deriving DecidableEq, Repr

def ChannelKey.fromStr (raw : Str) : Except ParseError ChannelKey :=
  if utf8Len raw < 1 ∨ 23 < utf8Len raw ∨ isAsciiStr raw = false
      ∨ raw.any (fun c => c ∈ ['\x00', '\x06', '\x09', '\x0a', '\x0b', '\x0d', '\x20']) then
    .error ⟨"ChannelKey"⟩
  else
    .ok ⟨raw⟩

def ChannelKey.render (k : ChannelKey) : Str := k.s

inductive ChannelType where
  | Local
  | Safe (id : ChannelID)
  | NoMode
  | Public
deriving DecidableEq, Repr

def ChannelType.render : ChannelType → Str
  | .Local => ['&']
  | .Safe id => '!' :: id.render
  | .NoMode => ['+']
  | .Public => ['#']

structure Channel where
  channel_type : ChannelType
  channel_name : ChannelName
  server_mask : Option ServerMask
deriving DecidableEq, Repr

/-- Split a character list at a UTF-8 byte offset; `none` when the
offset is not a character boundary or past the end (Rust
`str::is_char_boundary` plus slicing). -/
def splitAtBytes (n : Nat) (s : Str) : Option (Str × Str) :=
  if n = 0 then some ([], s)
  else
    match s with
    | [] => none
    | c :: t =>
      if charUtf8Size c ≤ n then
        (splitAtBytes (n - charUtf8Size c) t).map (fun p => (c :: p.1, p.2))
      else none

/-- `Channel::from_str` from `types/channel.rs`: an optional `:`-suffix
server mask, a 2–50-byte body, and either a `!`-prefixed safe channel
(5-character ID) or a single-character `&`/`+`/`#` type. -/
def Channel.fromStr (raw : Str) : Except ParseError Channel :=
  let p := splitFirst ':' raw
  match (match p.2 with
         | some after => (ServerMask.fromStr after).map (fun m => (p.1, some m))
         | none => .ok (raw, none) : Except ParseError (Str × Option ServerMask)) with
  | .error e => .error e
  | .ok (body, server_mask) =>
    if utf8Len body < 2 ∨ 50 < utf8Len body then .error ⟨"Channel"⟩
    else
      if body.head? = some '!' ∧ 6 < utf8Len body ∧ (splitAtBytes 6 body).isSome then
        match body with
        | _ :: rest =>
          match splitAtBytes 5 rest with
          | some (idPart, namePart) =>
            match ChannelID.fromStr idPart with
            | .error e => .error e
            | .ok id =>
              match ChannelName.fromStr namePart with
              | .error e => .error e
              | .ok nm => .ok ⟨.Safe id, nm, server_mask⟩
          | none => .error ⟨"Channel"⟩
        | [] => .error ⟨"Channel"⟩
      else
        match (match body.head? with
               | some '&' => .ok ChannelType.Local
               | some '+' => .ok ChannelType.NoMode
               | some '#' => .ok ChannelType.Public
               | _ => .error ⟨"Channel"⟩ : Except ParseError ChannelType) with
        | .error e => .error e
        | .ok ty =>
          match ChannelName.fromStr body.tail with
          | .error e => .error e
          | .ok nm => .ok ⟨ty, nm, server_mask⟩

def Channel.render (c : Channel) : Str :=
  c.channel_type.render ++ c.channel_name.render ++
    (match c.server_mask with
     | some m => ':' :: m.render
     | none => [])

/-! ## IP addresses (the platform's standard parser)

`Host::from_str` delegates to `std::net::IpAddr::from_str`.  The
functions below model the Rust standard library's address parser
(`core::net::parser`): numbers are read with a radix, a maximum digit
count and an overflow bound, IPv4 is four `.`-separated decimal octets
with no leading zeros, and IPv6 is the usual grouped-hex grammar with
`::` compression and an optional embedded trailing IPv4 address. -/

def charToDigit (radix : Nat) (c : Char) : Option Nat :=
  let v :=
    if c.isDigit then some (c.toNat - 48)
    else if 'a' ≤ c ∧ c ≤ 'z' then some (c.toNat - 97 + 10)
    else if 'A' ≤ c ∧ c ≤ 'Z' then some (c.toNat - 65 + 10)
    else none
  match v with
  | some d => if d < radix then some d else none
  | none => none

def readNumGo (radix maxVal maxDigits : Nat) : Str → Nat → Nat → Option (Nat × Nat × Str)
  | [], acc, cnt => some (acc, cnt, [])
  | c :: t, acc, cnt =>
    match charToDigit radix c with
    | none => some (acc, cnt, c :: t)
    | some d =>
      let acc' := acc * radix + d
      if maxVal < acc' then none
      else if maxDigits < cnt + 1 then none
      else readNumGo radix maxVal maxDigits t acc' (cnt + 1)

/-- `Parser::read_number` from the standard library: at least one digit,
optional leading-zero rejection, overflow and digit-count limits. -/
def readNumber (radix maxDigits maxVal : Nat) (allowZero : Bool) (s : Str) :
    Option (Nat × Str) :=
  let lead0 := s.head? = some '0'
  match readNumGo radix maxVal maxDigits s 0 0 with
  | none => none
  | some (v, cnt, rest) =>
    if cnt = 0 then none
    else if !allowZero ∧ lead0 ∧ 1 < cnt then none
    else some (v, rest)

def expectChar (c : Char) : Str → Option Str
  | x :: t => if x = c then some t else none
  | [] => none

/-- `Parser::read_ipv4_addr`: four octets, radix 10, at most three
digits, no leading zeros, each at most 255. -/
def readIpv4 (s : Str) : Option ((Nat × Nat × Nat × Nat) × Str) :=
  match readNumber 10 3 255 false s with
  | none => none
  | some (a, s) =>
    match expectChar '.' s with
    | none => none
    | some s =>
      match readNumber 10 3 255 false s with
      | none => none
      | some (b, s) =>
        match expectChar '.' s with
        | none => none
        | some s =>
          match readNumber 10 3 255 false s with
          | none => none
          | some (c, s) =>
            match expectChar '.' s with
            | none => none
            | some s =>
              match readNumber 10 3 255 false s with
              | none => none
              | some (d, s) => some ((a, b, c, d), s)

/-- `Parser::read_separator`: for group index `i > 0` a `:` is required
first; failure consumes nothing. -/
def readSepThen {α : Type} (i : Nat) (inner : Str → Option (α × Str)) (s : Str) :
    Option (α × Str) :=
  if i = 0 then inner s
  else
    match s with
    | ':' :: t => inner t
    | _ => none

/-- The `read_groups` helper of `read_ipv6_addr`: reads up to `limit`
hex groups; a trailing embedded IPv4 address (two groups' worth) is
attempted while at least two slots remain.  Returns the groups, whether
an embedded IPv4 address ended the run, and the remaining input. -/
def readGroupsGo (limit : Nat) : Nat → Nat → Str → List Nat →
    List Nat × Bool × Str
  | 0, _, s, acc => (acc.reverse, false, s)
  | fuel + 1, i, s, acc =>
    let v4 : Option (List Nat × Str) :=
      if i + 1 < limit then
        match readSepThen i readIpv4 s with
        | some ((a, b, c, d), rest) => some ([a * 256 + b, c * 256 + d], rest)
        | none => none
      else none
    match v4 with
    | some (gs, rest) => (acc.reverse ++ gs, true, rest)
    | none =>
      match readSepThen i (readNumber 16 4 65535 true) s with
      | some (g, rest) => readGroupsGo limit fuel (i + 1) rest (g :: acc)
      | none => (acc.reverse, false, s)

/-- The loop runs while `i < limit`; the fuel `limit - i` expresses that
bound structurally. -/
def readGroups (limit : Nat) (s : Str) : List Nat × Bool × Str :=
  readGroupsGo limit limit 0 s []

/-- `Parser::read_ipv6_addr`. -/
def readIpv6 (s : Str) : Option (List Nat × Str) :=
  let r := readGroups 8 s
  let head := r.1
  if head.length = 8 then some (head, r.2.2)
  else if r.2.1 then none
  else
    match r.2.2 with
    | ':' :: ':' :: s2 =>
      let limit := 8 - (head.length + 1)
      let t := readGroups limit s2
      let tail := t.1
      some (head ++ List.replicate (8 - head.length - tail.length) 0 ++ tail, t.2.2)
    | _ => none

/-- An IP address value (`std::net::IpAddr`); IPv6 is kept as its eight
16-bit segments. -/
inductive IpAddr where
  | V4 (a b c d : Nat)
  | V6 (segs : List Nat)
deriving DecidableEq, Repr

/-- `IpAddr::from_str`: try IPv4, else IPv6, and require the whole
input consumed. -/
def IpAddr.fromStr (s : Str) : Option IpAddr :=
  match readIpv4 s with
  | some ((a, b, c, d), rest) => if rest = [] then some (.V4 a b c d) else none
  | none =>
    match readIpv6 s with
    | some (segs, rest) => if rest = [] then some (.V6 segs) else none
    | none => none

def natDecChars (n : Nat) : Str := Nat.toDigits 10 n

def natHexChars (n : Nat) : Str := Nat.toDigits 16 n

def ipv4Render (a b c d : Nat) : Str :=
  natDecChars a ++ '.' :: natDecChars b ++ '.' :: natDecChars c ++ '.' :: natDecChars d

/-- First-longest run of zero segments (`Display for Ipv6Addr`). -/
def zeroRunGo : List Nat → Nat → Nat × Nat → Nat × Nat → Nat × Nat
  | [], _, cur, best => if best.2 < cur.2 then cur else best
  | x :: t, i, cur, best =>
    if x = 0 then
      zeroRunGo t (i + 1) (if cur.2 = 0 then (i, 1) else (cur.1, cur.2 + 1)) best
    else
      zeroRunGo t (i + 1) (0, 0) (if best.2 < cur.2 then cur else best)

def hexGroupsJoin (l : List Nat) : Str :=
  List.intercalate [':'] (l.map natHexChars)

/-- `Display for Ipv6Addr`: `::` for the unspecified address, `::1` for
loopback, `::ffff:a.b.c.d` for an IPv4-mapped address, otherwise
hex groups with the first longest zero run (of length at least two)
compressed. -/
def ipv6Render (segs : List Nat) : Str :=
  if segs = List.replicate 8 0 then [':', ':']
  else if segs = [0, 0, 0, 0, 0, 0, 0, 1] then [':', ':', '1']
  else
    match segs with
    | [0, 0, 0, 0, 0, 65535, g, h] =>
      [':', ':', 'f', 'f', 'f', 'f', ':'] ++
        ipv4Render (g / 256) (g % 256) (h / 256) (h % 256)
    | _ =>
      let run := zeroRunGo segs 0 (0, 0) (0, 0)
      if 1 < run.2 then
        hexGroupsJoin (segs.take run.1) ++ ':' :: ':' ::
          hexGroupsJoin (segs.drop (run.1 + run.2))
      else
        hexGroupsJoin segs

def IpAddr.render : IpAddr → Str
  | .V4 a b c d => ipv4Render a b c d
  | .V6 segs => ipv6Render segs

/-- `Host` from `entity/server.rs`: IP address first, then hostname. -/
inductive Host where
  | Hostaddr (ip : IpAddr)
  | Hostname (h : Hostname)
deriving DecidableEq, Repr

def Host.fromStr (raw : Str) : Except ParseError Host :=
  match IpAddr.fromStr raw with
  | some ip => .ok (.Hostaddr ip)
  | none =>
    match Hostname.fromStr raw with
    | .ok h => .ok (.Hostname h)
    | .error _ => .error ⟨"Host"⟩

def Host.render : Host → Str
  | .Hostaddr ip => ip.render
  | .Hostname h => h.render

/-! ## KeywordList, Recipient, Sender -/

/-- `KeywordList<T>` from `syntax/keyword_list.rs`, generic over the
element type; the element parser and renderer are passed explicitly. -/
structure KeywordList (α : Type) where
  elems : List α
deriving DecidableEq, Repr

def KeywordList.new {α : Type} : KeywordList α := ⟨[]⟩

def keywordListParseAll {α : Type} (p : Str → Except ParseError α) :
    List Str → Except ParseError (List α)
  | [] => .ok []
  | e :: t =>
    match p e with
    | .error _ => .error ⟨"KeywordList"⟩
    | .ok v => (keywordListParseAll p t).map (v :: ·)

def KeywordList.fromStr {α : Type} (p : Str → Except ParseError α) (raw : Str) :
    Except ParseError (KeywordList α) :=
  if 0 < utf8Len raw then
    (keywordListParseAll p (splitOnChar ',' raw)).map (⟨·⟩)
  else
    .ok ⟨[]⟩

def KeywordList.render {α : Type} (r : α → Str) (kl : KeywordList α) : Str :=
  List.intercalate [','] (kl.elems.map r)

/-- `Recipient` from `entity/mod.rs`. -/
inductive Recipient where
  | Channel (c : Channel)
  | Nickname (n : Nickname)
  | NicknameUserHost (n : Nickname) (u : Username) (h : Host)
  | TargetMask (m : TargetMask)
  | UserHost (u : Username) (h : Host)
  | UserHostServername (u : Username) (h : Host) (sn : Servername)
  | UserServername (u : Username) (sn : Servername)
deriving DecidableEq, Repr

/-- The final `match` of `Recipient::from_str`: split on `{'!', '@',
'%'}` and dispatch on the exact sequence of punctuation characters. -/
def recipientPunctSplit (raw : Str) : Except ParseError Recipient :=
  if punctOf ['!', '@', '%'] raw = ['!', '@'] then
    match splitOnAny ['!', '@'] raw with
    | [p0, p1, p2] =>
      match Nickname.fromStr p0 with
      | .error e => .error e
      | .ok n =>
        match Username.fromStr p1 with
        | .error e => .error e
        | .ok u =>
          match Host.fromStr p2 with
          | .error e => .error e
          | .ok h => .ok (.NicknameUserHost n u h)
    | _ => .error ⟨"Recipient"⟩
  else if punctOf ['!', '@', '%'] raw = ['%', '@'] then
    match splitOnAny ['%', '@'] raw with
    | [p0, p1, p2] =>
      match Username.fromStr p0 with
      | .error e => .error e
      | .ok u =>
        match Host.fromStr p1 with
        | .error e => .error e
        | .ok h =>
          match Servername.fromStr p2 with
          | .error e => .error e
          | .ok sn => .ok (.UserHostServername u h sn)
    | _ => .error ⟨"Recipient"⟩
  else if punctOf ['!', '@', '%'] raw = ['%'] then
    match splitOnChar '%' raw with
    | [p0, p1] =>
      match Username.fromStr p0 with
      | .error e => .error e
      | .ok u =>
        match Host.fromStr p1 with
        | .error e => .error e
        | .ok h => .ok (.UserHost u h)
    | _ => .error ⟨"Recipient"⟩
  else if punctOf ['!', '@', '%'] raw = ['@'] then
    match splitOnChar '@' raw with
    | [p0, p1] =>
      match Username.fromStr p0 with
      | .error e => .error e
      | .ok u =>
        match Servername.fromStr p1 with
        | .error e => .error e
        | .ok sn => .ok (.UserServername u sn)
    | _ => .error ⟨"Recipient"⟩
  else
    .error ⟨"Recipient"⟩

/-- `Recipient::from_str`: the documented precedence cascade. -/
def Recipient.fromStr (raw : Str) : Except ParseError Recipient :=
  if raw.head? = some '#' ∧ raw.any (fun c => c = '*' ∨ c = '?')
      ∧ (TargetMask.fromStr raw).isOk then
    (TargetMask.fromStr raw).map Recipient.TargetMask
  else
    match Channel.fromStr raw with
    | .ok c => .ok (.Channel c)
    | .error _ =>
      match TargetMask.fromStr raw with
      | .ok m => .ok (.TargetMask m)
      | .error _ =>
        match Nickname.fromStr raw with
        | .ok n => .ok (.Nickname n)
        | .error _ => recipientPunctSplit raw

def Recipient.render : Recipient → Str
  | .Channel c => c.render
  | .Nickname n => n.render
  | .NicknameUserHost n u h => n.render ++ '!' :: u.render ++ '@' :: h.render
  | .TargetMask m => m.render
  | .UserHost u h => u.render ++ '%' :: h.render
  | .UserHostServername u h sn => u.render ++ '%' :: h.render ++ '@' :: sn.render
  | .UserServername u sn => u.render ++ '@' :: sn.render

/-- `Sender` from `entity/mod.rs`. -/
inductive Sender where
  | User (nickname : Nickname) (user : Option Username) (host : Option Host)
  | Server (sn : Servername)
deriving DecidableEq, Repr

/-- `Sender::from_str`: a servername (when a `.` is present), else a
split on `{'!', '@'}`. -/
def Sender.fromStr (raw : Str) : Except ParseError Sender :=
  if (Servername.fromStr raw).isOk ∧ '.' ∈ raw then
    (Servername.fromStr raw).map Sender.Server
  else if punctOf ['!', '@'] raw = ['!', '@'] then
    match splitOnAny ['!', '@'] raw with
    | [p0, p1, p2] =>
      match Nickname.fromStr p0 with
      | .error e => .error e
      | .ok n =>
        match Username.fromStr p1 with
        | .error e => .error e
        | .ok u =>
          match Host.fromStr p2 with
          | .error e => .error e
          | .ok h => .ok (.User n (some u) (some h))
    | _ => .error ⟨"Sender"⟩
  else if punctOf ['!', '@'] raw = ['@'] then
    match splitOnChar '@' raw with
    | [p0, p1] =>
      match Nickname.fromStr p0 with
      | .error e => .error e
      | .ok n =>
        match Host.fromStr p1 with
        | .error e => .error e
        | .ok h => .ok (.User n none (some h))
    | _ => .error ⟨"Sender"⟩
  else if punctOf ['!', '@'] raw = [] then
    (Nickname.fromStr raw).map (fun n => .User n none none)
  else
    .error ⟨"Sender"⟩

/-- `From<Sender> for String`: the username is emitted only when a host
is present as well. -/
def Sender.render : Sender → Str
  | .Server sn => sn.render
  | .User nickname user host =>
    nickname.render ++
      (match host with
       | some h =>
         (match user with
          | some u => '!' :: u.render
          | none => []) ++ '@' :: h.render
       | none => [])

/-! ## Command -/

def str (s : String) : Str := s.toList

/-- The command vocabulary from `message/command.rs`. -/
inductive Command where
  | Pass (password : Str)
  | Nick (nickname : Nickname)
  | User (username : Username) (mode : Nat) (realname : Str)
  | Oper (user : Username) (password : Str)
  | UserMode (nickname : Nickname) (modes : Str)
  | Service (nickname : Nickname) (distribution : ServerMask) (info : Str)
  | Quit (message : Option Str)
  | SQuit (server : Servername) (comment : Str)
  | Join (channels : KeywordList Channel) (keys : KeywordList ChannelKey)
  | Part (channels : KeywordList Channel) (message : Option Str)
  | ChannelMode (channel : Channel) (modes : Str)
  | Topic (channel : Channel) (topic : Option Str)
  | Names (channels : KeywordList Channel) (target : Option ServerMask)
  | List (channels : KeywordList Channel) (target : Option ServerMask)
  | Invite (nickname : Nickname) (channel : Channel)
  | Kick (channels : KeywordList Channel) (users : KeywordList Username)
      (comment : Option Str)
  | Privmsg (recipients : KeywordList Recipient) (message : Str)
  | Notice (recipients : KeywordList Recipient) (message : Str)
  | Motd (target : Option ServerMask)
  | LUsers (mask : Option ServerMask) (target : Option Servername)
  | Version (target : Option ServerMask)
  | Stats (query : Option StatsQuery) (target : Option ServerMask)
  | Links (mask : Option ServerMask) (target : Option ServerMask)
  | Time (target : Option ServerMask)
  | Connect (target : Servername) (port : Nat) (remote : Option Servername)
  | Trace (target : Option Str)
  | Admin (target : Option Str)
  | Info (target : Option Str)
  | ServList (mask : Option Str) (service_type : Option Str)
  | SQuery (recipient : Recipient) (message : Str)
  | Who (mask : Option Str) (op_only : Bool)
  | WhoIs (mask : Str) (target : Option ServerMask)
  | WhoWas (nicknames : KeywordList Nickname) (count : Option Nat)
      (target : Option ServerMask)
  | Kill (nickname : Nickname) (comment : Str)
  | Ping (src : Option Sender) (dst : Option Sender)
  | Pong (src : Sender) (dst : Option Sender)
  | Error (message : Str)
  | Away (message : Option Str)
  | Rehash
  | Die
  | Restart
  | Summon (user : Username) (target : Option Servername) (channel : Option Channel)
  | Users (target : Option Servername)
  | WallOps (message : Str)
  | UserHost (nicknames : KeywordList Nickname)
  | IsOn (nicknames : KeywordList Nickname)
deriving DecidableEq, Repr

/-- `args[i]` (all uses in the source are guarded by the arity match). -/
def argN (args : MessageParams) (i : Nat) : Str := args.args.getD i []

/-- The big `(verb, arity)` match of `Command::from_str`.  `raw_args` is
the raw text after the verb (needed verbatim by the MODE and PING
arms). -/
def commandDispatch (verb : String) (raw_args : Str) (args : MessageParams) :
    Except ParseError Command := do
  let n := args.args.length
  match verb, n with
  | "PASS", 1 => return .Pass (argN args 0)
  | "NICK", 1 => return .Nick (← Nickname.fromStr (argN args 0))
  | "USER", 4 =>
    match ReplyType.rustParseUInt 255 (argN args 1) with
    | none => .error ⟨"Command"⟩
    | some mode =>
      return .User (← Username.fromStr (argN args 0)) mode (argN args 3)
  | "OPER", 2 => return .Oper (← Username.fromStr (argN args 0)) (argN args 1)
  | "MODE", n =>
    if 2 ≤ n ∧ n ≤ 15 then
      let modes := ((splitFirstSpace raw_args).2.map id).getD []
      match Channel.fromStr (argN args 0) with
      | .ok channel => return .ChannelMode channel modes
      | .error _ =>
        match Nickname.fromStr (argN args 0) with
        | .ok nickname => return .UserMode nickname modes
        | .error _ => .error ⟨"Command"⟩
    else .error ⟨"Command"⟩
  | "SERVICE", 6 =>
    return .Service (← Nickname.fromStr (argN args 0))
      (← ServerMask.fromStr (argN args 2)) (argN args 5)
  | "QUIT", 0 => return .Quit none
  | "QUIT", 1 => return .Quit (some (argN args 0))
  | "SQUIT", 2 => return .SQuit (← Servername.fromStr (argN args 0)) (argN args 1)
  | "JOIN", 1 =>
    if argN args 0 = str "0" then
      return .Join KeywordList.new KeywordList.new
    else
      return .Join (← KeywordList.fromStr Channel.fromStr (argN args 0)) KeywordList.new
  | "JOIN", 2 =>
    return .Join (← KeywordList.fromStr Channel.fromStr (argN args 0))
      (← KeywordList.fromStr ChannelKey.fromStr (argN args 1))
  | "PART", 1 => return .Part (← KeywordList.fromStr Channel.fromStr (argN args 0)) none
  | "PART", 2 =>
    return .Part (← KeywordList.fromStr Channel.fromStr (argN args 0))
      (some (argN args 1))
  | "TOPIC", 1 => return .Topic (← Channel.fromStr (argN args 0)) none
  | "TOPIC", 2 => return .Topic (← Channel.fromStr (argN args 0)) (some (argN args 1))
  | "NAMES", 0 => return .Names KeywordList.new none
  | "NAMES", 1 => return .Names (← KeywordList.fromStr Channel.fromStr (argN args 0)) none
  | "NAMES", 2 =>
    return .Names (← KeywordList.fromStr Channel.fromStr (argN args 0))
      (some (← ServerMask.fromStr (argN args 1)))
  | "LIST", 0 => return .List KeywordList.new none
  | "LIST", 1 => return .List (← KeywordList.fromStr Channel.fromStr (argN args 0)) none
  | "LIST", 2 =>
    return .List (← KeywordList.fromStr Channel.fromStr (argN args 0))
      (some (← ServerMask.fromStr (argN args 1)))
  | "INVITE", 2 =>
    return .Invite (← Nickname.fromStr (argN args 0)) (← Channel.fromStr (argN args 1))
  | "KICK", 2 =>
    return .Kick (← KeywordList.fromStr Channel.fromStr (argN args 0))
      (← KeywordList.fromStr Username.fromStr (argN args 1)) none
  | "KICK", 3 =>
    return .Kick (← KeywordList.fromStr Channel.fromStr (argN args 0))
      (← KeywordList.fromStr Username.fromStr (argN args 1)) (some (argN args 2))
  | "PRIVMSG", 2 =>
    return .Privmsg (← KeywordList.fromStr Recipient.fromStr (argN args 0)) (argN args 1)
  | "NOTICE", 2 =>
    return .Notice (← KeywordList.fromStr Recipient.fromStr (argN args 0)) (argN args 1)
  | "MOTD", 0 => return .Motd none
  | "MOTD", 1 => return .Motd (some (← ServerMask.fromStr (argN args 0)))
  | "LUSERS", 0 => return .LUsers none none
  | "LUSERS", 1 => return .LUsers (some (← ServerMask.fromStr (argN args 0))) none
  | "LUSERS", 2 =>
    return .LUsers (some (← ServerMask.fromStr (argN args 0)))
      (some (← Servername.fromStr (argN args 1)))
  | "VERSION", 0 => return .Version none
  | "VERSION", 1 => return .Version (some (← ServerMask.fromStr (argN args 0)))
  | "STATS", 0 => return .Stats none none
  | "STATS", 1 => return .Stats (some (← StatsQuery.fromStr (argN args 0))) none
  | "STATS", 2 =>
    return .Stats (some (← StatsQuery.fromStr (argN args 0)))
      (some (← ServerMask.fromStr (argN args 1)))
  | "LINKS", 0 => return .Links none none
  | "LINKS", 1 => return .Links (some (← ServerMask.fromStr (argN args 0))) none
  | "LINKS", 2 =>
    return .Links (some (← ServerMask.fromStr (argN args 1)))
      (some (← ServerMask.fromStr (argN args 0)))
  | "TIME", 0 => return .Time none
  | "TIME", 1 => return .Time (some (← ServerMask.fromStr (argN args 0)))
  | "CONNECT", 2 =>
    match ReplyType.rustParseUInt 65535 (argN args 1) with
    | none => .error ⟨"Command"⟩
    | some port => return .Connect (← Servername.fromStr (argN args 0)) port none
  | "CONNECT", 3 =>
    match ReplyType.rustParseUInt 65535 (argN args 1) with
    | none => .error ⟨"Command"⟩
    | some port =>
      return .Connect (← Servername.fromStr (argN args 0)) port
        (some (← Servername.fromStr (argN args 2)))
  | "TRACE", 0 => return .Trace none
  | "TRACE", 1 => return .Trace (some (argN args 0))
  | "ADMIN", 0 => return .Admin none
  | "ADMIN", 1 => return .Admin (some (argN args 0))
  | "INFO", 0 => return .Info none
  | "INFO", 1 => return .Info (some (argN args 0))
  | "SERVLIST", 0 => return .ServList none none
  | "SERVLIST", 1 => return .ServList (some (argN args 0)) none
  | "SERVLIST", 2 => return .ServList (some (argN args 0)) (some (argN args 1))
  | "SQUERY", 2 =>
    return .SQuery (← Recipient.fromStr (argN args 0)) (argN args 1)
  | "WHO", 0 => return .Who none false
  | "WHO", 1 => return .Who (some (argN args 0)) false
  | "WHO", 2 =>
    if argN args 1 = str "o" then return .Who (some (argN args 0)) true
    else .error ⟨"Command"⟩
  | "WHOIS", 1 => return .WhoIs (argN args 0) none
  | "WHOIS", 2 =>
    return .WhoIs (argN args 1) (some (← ServerMask.fromStr (argN args 0)))
  | "WHOWAS", 1 =>
    return .WhoWas (← KeywordList.fromStr Nickname.fromStr (argN args 0)) none none
  | "WHOWAS", 2 =>
    match ReplyType.rustParseUInt 65535 (argN args 1) with
    | none => .error ⟨"Command"⟩
    | some count =>
      return .WhoWas (← KeywordList.fromStr Nickname.fromStr (argN args 0))
        (some count) none
  | "WHOWAS", 3 =>
    match ReplyType.rustParseUInt 65535 (argN args 1) with
    | none => .error ⟨"Command"⟩
    | some count =>
      return .WhoWas (← KeywordList.fromStr Nickname.fromStr (argN args 0))
        (some count) (some (← ServerMask.fromStr (argN args 2)))
  | "KILL", 2 => return .Kill (← Nickname.fromStr (argN args 0)) (argN args 1)
  | "PING", 0 => return .Ping none none
  | "PING", 1 =>
    if raw_args.head? = some ':' then
      return .Ping (some (← Sender.fromStr (argN args 0))) none
    else
      return .Ping none (some (← Sender.fromStr (argN args 0)))
  | "PING", 2 =>
    return .Ping (some (← Sender.fromStr (argN args 0)))
      (some (← Sender.fromStr (argN args 1)))
  | "PONG", 1 => return .Pong (← Sender.fromStr (argN args 0)) none
  | "PONG", 2 =>
    return .Pong (← Sender.fromStr (argN args 0)) (some (← Sender.fromStr (argN args 1)))
  | "ERROR", 1 => return .Error (argN args 0)
  | "AWAY", 0 => return .Away none
  | "AWAY", 1 => return .Away (some (argN args 0))
  | "REHASH", 0 => return .Rehash
  | "DIE", 0 => return .Die
  | "RESTART", 0 => return .Restart
  | "SUMMON", 1 => return .Summon (← Username.fromStr (argN args 0)) none none
  | "SUMMON", 2 =>
    return .Summon (← Username.fromStr (argN args 0))
      (some (← Servername.fromStr (argN args 1))) none
  | "SUMMON", 3 =>
    return .Summon (← Username.fromStr (argN args 0))
      (some (← Servername.fromStr (argN args 1))) (some (← Channel.fromStr (argN args 2)))
  | "USERS", 0 => return .Users none
  | "USERS", 1 => return .Users (some (← Servername.fromStr (argN args 0)))
  | "WALLOPS", 1 => return .WallOps (argN args 0)
  | "USERHOST", n =>
    if 1 ≤ n ∧ n ≤ 15 then
      return .UserHost
        (← KeywordList.fromStr Nickname.fromStr (List.intercalate [','] args.args))
    else .error ⟨"Command"⟩
  | "ISON", n =>
    if 1 ≤ n ∧ n ≤ 15 then
      return .IsOn
        (← KeywordList.fromStr Nickname.fromStr (List.intercalate [','] args.args))
    else .error ⟨"Command"⟩
  | _, _ => .error ⟨"Command"⟩

/-- `Command::from_str`: the text before the first space is the verb,
the rest is the parameter text. -/
def Command.fromStr (raw : Str) : Except ParseError Command := do
  let p := splitFirstSpace raw
  let raw_args := p.2.getD []
  let args ← MessageParams.fromStr raw_args
  commandDispatch p.1.asString raw_args args

/-- Build the wire form `VERB arg1 ... argN` through `MessageParams`
(`MessageParams::from(vec![..]).to_string_with_prefix(..)` in the
source); `none` models the `unwrap` panic on a rejected push. -/
def withVerb (verb : String) (fields : List Str) : Option Str :=
  (MessageParams.fromVec fields).map (fun mp => mp.toStringWithVerb verb.toList)

def replaceChar (old new : Char) (s : Str) : Str :=
  s.map (fun c => if c = old then new else c)

/-- `From<Command> for String`. -/
def Command.render : Command → Option Str
  | .Pass password => withVerb "PASS" [password]
  | .Nick nickname => withVerb "NICK" [nickname.render]
  | .User username mode realname =>
    withVerb "USER" [username.render, natDecChars mode, str "*", realname]
  | .Oper user password => withVerb "OPER" [user.render, password]
  | .UserMode nickname modes => withVerb "MODE" [nickname.render, modes]
  | .Service nickname distribution info =>
    withVerb "SERVICE"
      [nickname.render, [], distribution.render, str "0", str "0", info]
  | .Quit none => some (str "QUIT")
  | .Quit (some message) => withVerb "QUIT" [message]
  | .SQuit server comment => withVerb "SQUIT" [server.render, comment]
  | .Join channels keys =>
    if channels.elems.length = 0 then some (str "JOIN 0")
    else if keys.elems.length = 0 then
      withVerb "JOIN" [KeywordList.render Channel.render channels]
    else
      withVerb "JOIN" [KeywordList.render Channel.render channels,
        KeywordList.render ChannelKey.render keys]
  | .Part channels none => withVerb "PART" [KeywordList.render Channel.render channels]
  | .Part channels (some message) =>
    withVerb "PART" [KeywordList.render Channel.render channels, message]
  | .ChannelMode channel modes =>
    some (str "MODE " ++ channel.render ++ ' ' :: modes)
  | .Topic channel none => withVerb "TOPIC" [channel.render]
  | .Topic channel (some topic) => withVerb "TOPIC" [channel.render, topic]
  | .Names channels none =>
    if channels.elems.length = 0 then some (str "NAMES")
    else withVerb "NAMES" [KeywordList.render Channel.render channels]
  | .Names channels (some target) =>
    withVerb "NAMES" [KeywordList.render Channel.render channels, target.render]
  | .List channels none =>
    if channels.elems.length = 0 then some (str "LIST")
    else withVerb "LIST" [KeywordList.render Channel.render channels]
  | .List channels (some target) =>
    withVerb "LIST" [KeywordList.render Channel.render channels, target.render]
  | .Invite nickname channel => withVerb "INVITE" [nickname.render, channel.render]
  | .Kick channels users none =>
    withVerb "KICK" [KeywordList.render Channel.render channels,
      KeywordList.render Username.render users]
  | .Kick channels users (some comment) =>
    withVerb "KICK" [KeywordList.render Channel.render channels,
      KeywordList.render Username.render users, comment]
  | .Privmsg recipients message =>
    withVerb "PRIVMSG" [KeywordList.render Recipient.render recipients, message]
  | .Notice recipients message =>
    withVerb "NOTICE" [KeywordList.render Recipient.render recipients, message]
  | .Motd none => some (str "MOTD")
  | .Motd (some target) => withVerb "MOTD" [target.render]
  | .LUsers none none => some (str "LUSERS")
  | .LUsers none (some target) => withVerb "LUSERS" [target.render]
  | .LUsers (some mask) none => withVerb "LUSERS" [mask.render]
  | .LUsers (some mask) (some target) => withVerb "LUSERS" [mask.render, target.render]
  | .Version none => some (str "VERSION")
  | .Version (some target) => withVerb "VERSION" [target.render]
  | .Stats none _ => some (str "STATS")
  | .Stats (some query) none => withVerb "STATS" [query.render]
  | .Stats (some query) (some target) => withVerb "STATS" [query.render, target.render]
  | .Links none none => some (str "LINKS")
  | .Links (some mask) none => withVerb "LINKS" [mask.render]
  | .Links none (some target) => withVerb "LINKS" [str "*", target.render]
  | .Links (some mask) (some target) => withVerb "LINKS" [target.render, mask.render]
  | .Time none => some (str "TIME")
  | .Time (some target) => withVerb "TIME" [target.render]
  | .Connect target port none =>
    withVerb "CONNECT" [target.render, natDecChars port]
  | .Connect target port (some remote) =>
    withVerb "CONNECT" [target.render, natDecChars port, remote.render]
  | .Trace none => some (str "TRACE")
  | .Trace (some target) => withVerb "TRACE" [target]
  | .Admin none => some (str "ADMIN")
  | .Admin (some target) => withVerb "ADMIN" [target]
  | .Info none => some (str "INFO")
  | .Info (some target) => withVerb "INFO" [target]
  | .ServList none none => some (str "SERVLIST")
  | .ServList (some mask) none => withVerb "SERVLIST" [mask]
  | .ServList none (some service_type) => withVerb "SERVLIST" [service_type]
  | .ServList (some mask) (some service_type) => withVerb "SERVLIST" [mask, service_type]
  | .SQuery recipient message => withVerb "SQUERY" [recipient.render, message]
  | .Who none _ => some (str "WHO")
  | .Who (some mask) false => withVerb "WHO" [mask]
  | .Who (some mask) true => withVerb "WHO" [mask, str "o"]
  | .WhoIs mask none => withVerb "WHOIS" [mask]
  | .WhoIs mask (some target) => withVerb "WHOIS" [target.render, mask]
  | .WhoWas nicknames none none =>
    withVerb "WHOWAS" [KeywordList.render Nickname.render nicknames]
  | .WhoWas nicknames none (some target) =>
    withVerb "WHOWAS" [KeywordList.render Nickname.render nicknames, target.render]
  | .WhoWas nicknames (some count) none =>
    withVerb "WHOWAS" [KeywordList.render Nickname.render nicknames, natDecChars count]
  | .WhoWas nicknames (some count) (some target) =>
    withVerb "WHOWAS" [KeywordList.render Nickname.render nicknames,
      natDecChars count, target.render]
  | .Kill nickname comment => withVerb "KILL" [nickname.render, comment]
  | .Ping none none => some (str "PING")
  | .Ping none (some dst) => withVerb "PING" [dst.render]
  | .Ping (some src) none => some (str "PING :" ++ src.render)
  | .Ping (some src) (some dst) => withVerb "PING" [src.render, dst.render]
  | .Pong src none => withVerb "PONG" [src.render]
  | .Pong src (some dst) => withVerb "PONG" [src.render, dst.render]
  | .Error message => withVerb "ERROR" [message]
  | .Away none => some (str "AWAY")
  | .Away (some message) => withVerb "AWAY" [message]
  | .Rehash => some (str "REHASH")
  | .Die => some (str "DIE")
  | .Restart => some (str "RESTART")
  | .Summon user none none => withVerb "SUMMON" [user.render]
  | .Summon user none (some channel) => withVerb "SUMMON" [user.render, channel.render]
  | .Summon user (some target) none => withVerb "SUMMON" [user.render, target.render]
  | .Summon user (some target) (some channel) =>
    withVerb "SUMMON" [user.render, target.render, channel.render]
  | .Users none => some (str "USERS")
  | .Users (some target) => withVerb "USERS" [target.render]
  | .WallOps message => withVerb "WALLOPS" [message]
  | .UserHost nicknames =>
    (withVerb "USERHOST" [KeywordList.render Nickname.render nicknames]).map
      (replaceChar ',' ' ')
  | .IsOn nicknames =>
    (withVerb "ISON" [KeywordList.render Nickname.render nicknames]).map
      (replaceChar ',' ' ')

/-! ## MessageBody and Message -/

/-- `MessageBody` from `message/mod.rs`. -/
inductive MessageBody where
  | Command (c : Command)
  | Reply (reply_type : ReplyType) (params : MessageParams)
deriving DecidableEq, Repr

/-- `MessageBody::from_str`: an uppercase first character starts a
command, a digit a numeric reply (code before the first space, the rest
the parameter list; no space means an empty parameter list). -/
def MessageBody.fromStr (raw : Str) : Except ParseError MessageBody := do
  match raw.head? with
  | some c =>
    if c.isUpper then
      return .Command (← Command.fromStr raw)
    else if c.isDigit then
      match splitFirstSpace raw with
      | (code, some rest) =>
        return .Reply (← ReplyType.fromStr code) (← MessageParams.fromStr rest)
      | (_, none) =>
        return .Reply (← ReplyType.fromStr raw) MessageParams.new
    else .error ⟨"MessageBody"⟩
  | none => .error ⟨"MessageBody"⟩

/-- `From<MessageBody> for String`.  Note that a reply always emits a
space after the numeric code, even when the parameter list is empty. -/
def MessageBody.render : MessageBody → Option Str
  | .Command c => c.render
  | .Reply reply_type reply_body =>
    some (reply_type.render ++ ' ' :: reply_body.render)

/-- `Message` from `message/mod.rs`. -/
structure Message where
  sender : Option Sender
  body : MessageBody
deriving DecidableEq, Repr

/-- Rust's `str::trim_end_matches(&['\r', '\n'])`. -/
def trimEndCrLf (s : Str) : Str :=
  (s.reverse.dropWhile (fun c => c = '\r' ∨ c = '\n')).reverse

/-- `Message::from_str`: strip trailing CR/LF; a leading `:` followed by
a space introduces the sender prefix. -/
def Message.fromStr (raw0 : Str) : Except ParseError Message := do
  let raw := trimEndCrLf raw0
  if raw.head? = some ':' ∧ ' ' ∈ raw then
    match raw with
    | _ :: rest =>
      match splitFirstSpace rest with
      | (sraw, some body) =>
        return { sender := some (← Sender.fromStr sraw), body := ← MessageBody.fromStr body }
      | (_, none) => .error ⟨"Message"⟩
    | [] => .error ⟨"Message"⟩
  else
    return { sender := none, body := ← MessageBody.fromStr raw }

/-- `From<Message> for String`. -/
def Message.render (m : Message) : Option Str :=
  match m.sender with
  | some sender => (m.body.render).map (fun b => ':' :: sender.render ++ ' ' :: b)
  | none => m.body.render

/-! ## Verification -/

theorem fromStrGo_length (fuel : Nat) (rem : Str) (args : List Str) :
    (MessageParams.fromStrGo fuel rem args).length ≤ max (args.length + 1) 15 := by
  induction fuel generalizing rem args with
  | zero => simp [MessageParams.fromStrGo]
  | succ fuel ih =>
    cases rem with
    | nil => simp [MessageParams.fromStrGo]
    | cons c t =>
      rw [MessageParams.fromStrGo]
      by_cases hfire : c = ':' ∨ 14 ≤ args.length
      · simp [hfire]
      · simp only [if_neg hfire]
        split
        · simp
        · refine le_trans (ih _ _) ?_
          push_neg at hfire
          split
          · exact le_refl _
          · simp only [List.length_append, List.length_cons, List.length_nil]
            omega

/-- C8: `MessageParams::from_str` is total and infallible — every input
string parses to `Ok`, and the resulting parameter list never exceeds 15
entries. -/
theorem c8_messageParams_fromStr_total :
    ∀ s : Str, ∃ mp, MessageParams.fromStr s = .ok mp ∧ mp.args.length ≤ 15 :=
  fun s => ⟨_, rfl, by
    show (MessageParams.fromStrGo (s.length + 1) s []).length ≤ 15
    have h := fromStrGo_length (s.length + 1) s []
    simp only [List.length_nil] at h
    omega⟩

theorem fromVecGo_spec (l : List Str) (mp mp' : MessageParams)
    (h : MessageParams.fromVecGo mp l = some mp') :
    mp'.args = mp.args ++ l
    ∧ (mp'.has_space = true ↔ (mp.has_space = true ∨ ∃ a ∈ l, ' ' ∈ a)) := by
  induction l generalizing mp with
  | nil =>
    simp [MessageParams.fromVecGo] at h
    simp [← h]
  | cons v t ih =>
    rw [MessageParams.fromVecGo] at h
    unfold MessageParams.push at h
    by_cases hfail : 15 ≤ mp.args.length ∨ mp.has_space = true
    · simp [hfail] at h
    · simp only [if_neg hfail] at h
      obtain ⟨h1, h2⟩ := ih _ h
      push_neg at hfail
      constructor
      · simp at h1; simp [h1]
      · rw [h2]
        simp only [hfail.2]
        by_cases hv : ' ' ∈ v <;> simp [hv]

/-- C4: `MessageParams::push` fails exactly when the container already
holds 15 parameters or a previously pushed parameter contained a space;
on failure the stored list is unchanged (no silent truncation), and for
a container built by successful pushes the failure condition is exactly
"15 parameters already present, or some pushed parameter had a
space". -/
theorem c4_push_rejects_exactly :
    (∀ (mp : MessageParams) (v : Str),
        ((mp.push v).2.isSome = true ↔ (15 ≤ mp.args.length ∨ mp.has_space = true))
      ∧ ((mp.push v).2.isSome = true → (mp.push v).1 = mp))
    ∧ (∀ (l : List Str) (mp : MessageParams), MessageParams.fromVec l = some mp →
        mp.args = l
        ∧ ∀ v, ((mp.push v).2.isSome = true ↔ (15 ≤ l.length ∨ ∃ a ∈ l, ' ' ∈ a))) := by
  constructor
  · intro mp v
    unfold MessageParams.push
    by_cases hfail : 15 ≤ mp.args.length ∨ mp.has_space = true <;> simp [hfail]
  · intro l mp h
    obtain ⟨h1, h2⟩ := fromVecGo_spec l MessageParams.new mp h
    simp [MessageParams.new] at h1 h2
    refine ⟨h1, fun v => ?_⟩
    unfold MessageParams.push
    by_cases hfail : 15 ≤ mp.args.length ∨ mp.has_space = true
    · simp only [if_pos hfail]
      simp only [Option.isSome_some, true_iff]
      rcases hfail with hlen | hsp
      · left; rw [← h1]; exact hlen
      · right; rw [← h2]; exact hsp
    · simp only [if_neg hfail]
      push_neg at hfail
      simp only [Option.isSome_none, Bool.false_eq_true, false_iff]
      push_neg
      refine ⟨?_, ?_⟩
      · rw [← h1]; omega
      · intro a ha hsp
        exact absurd (h2.mpr ⟨a, ha, hsp⟩) (by simp [hfail.2])

theorem c4_witness :
    ((⟨[str "a"], false⟩ : MessageParams).push (str "b")).2.isSome = true ↔
      (15 ≤ [str "a"].length ∨ ∃ a ∈ [str "a"], ' ' ∈ a) :=
  (c4_push_rejects_exactly.2 [str "a"] ⟨[str "a"], false⟩ rfl).2 (str "b")

/-- C6 counterexample: rendering a reply with an empty parameter list
emits the three-digit code followed by a space (`"001 "`), not the bare
code `"001"` that the claim describes. -/
theorem c6_counterexample :
    MessageBody.render (.Reply .PrvWelcome MessageParams.new) = some (str "001 ")
    ∧ str "001 " ≠ str "001" :=
  ⟨rfl, by decide⟩

/-- C6 (amended): a rendered reply always places a single space after
the three-digit code, even when the parameter list is empty (in which
case the output is the code followed by a trailing space). -/
theorem c6_amended_reply_render :
    (∀ (ty : ReplyType) (ps : MessageParams),
        MessageBody.render (.Reply ty ps) = some (ty.render ++ ' ' :: ps.render))
    ∧ (∀ (ty : ReplyType) (hs : Bool),
        MessageBody.render (.Reply ty ⟨[], hs⟩) = some (ty.render ++ [' '])) :=
  ⟨fun _ _ => rfl, fun _ _ => rfl⟩

/-- C10: rendering a `Sender::User` emits the username only when a host
is present: user-without-host renders as the bare nickname, and every
rendered user form is `nick`, `nick@host`, or `nick!user@host`. -/
theorem c10_sender_render_forms :
    (∀ (n : Nickname) (u : Username),
        Sender.render (.User n (some u) none) = n.render)
    ∧ (∀ (n : Nickname) (u? : Option Username) (h? : Option Host),
        Sender.render (.User n u? h?) = n.render
        ∨ (∃ h, h? = some h ∧
            Sender.render (.User n u? h?) = n.render ++ '@' :: h.render)
        ∨ (∃ u h, u? = some u ∧ h? = some h ∧
            Sender.render (.User n u? h?) = n.render ++ '!' :: u.render ++ '@' :: h.render)) := by
  constructor
  · intro n u; simp [Sender.render]
  · intro n u? h?
    match u?, h? with
    | none, none => left; simp [Sender.render]
    | some u, none => left; simp [Sender.render]
    | none, some h => right; left; exact ⟨h, rfl, by simp [Sender.render]⟩
    | some u, some h => right; right; exact ⟨u, h, rfl, rfl, by simp [Sender.render]⟩
theorem digit_toNat_bounds {c : Char} (h : c.isDigit = true) :
    48 ≤ c.toNat ∧ c.toNat ≤ 57 := by
  simp only [Char.isDigit, ge_iff_le, Bool.and_eq_true, decide_eq_true_eq] at h
  exact ⟨UInt32.le_toNat_of_le (by norm_num) h.1, UInt32.toNat_le_of_le (by norm_num) h.2⟩

def rpVal2 (b c : Char) : Nat := (b.toNat - 48) * 10 + (c.toNat - 48)

def rpVal3 (a b c : Char) : Nat :=
  ((a.toNat - 48) * 10 + (b.toNat - 48)) * 10 + (c.toNat - 48)

theorem go_two (b c : Char) :
    ReplyType.rustParseUIntGo 65535 [b, c] 0 =
      (if b.isDigit = true ∧ c.isDigit = true then some (rpVal2 b c) else none) := by
  by_cases hb : b.isDigit = true
  · have hbb := digit_toNat_bounds hb
    by_cases hc : c.isDigit = true
    · have hcc := digit_toNat_bounds hc
      simp only [ReplyType.rustParseUIntGo, hb, hc, if_true]
      rw [if_pos (by omega), if_pos (by omega)]
      simp [rpVal2]
    · simp only [ReplyType.rustParseUIntGo, hb, hc, if_true]
      rw [if_pos (by omega : 0 * 10 + (b.toNat - 48) ≤ 65535)]
      simp [hc]
  · simp [ReplyType.rustParseUIntGo, hb]

theorem go_three (a b c : Char) :
    ReplyType.rustParseUIntGo 65535 [a, b, c] 0 =
      (if a.isDigit = true ∧ b.isDigit = true ∧ c.isDigit = true
       then some (rpVal3 a b c) else none) := by
  by_cases ha : a.isDigit = true
  · have haa := digit_toNat_bounds ha
    by_cases hb : b.isDigit = true
    · have hbb := digit_toNat_bounds hb
      by_cases hc : c.isDigit = true
      · have hcc := digit_toNat_bounds hc
        simp only [ReplyType.rustParseUIntGo, ha, hb, hc, if_true]
        rw [if_pos (by omega), if_pos (by omega), if_pos (by omega)]
        simp [rpVal3]
      · simp only [ReplyType.rustParseUIntGo, ha, hb, hc, if_true]
        rw [if_pos (by omega), if_pos (by omega)]
        simp [hc]
    · simp only [ReplyType.rustParseUIntGo, ha, hb, if_true]
      rw [if_pos (by omega)]
      simp [hb, ha]
  · simp [ReplyType.rustParseUIntGo, ha]

theorem rpu_three (a b c : Char) :
    ReplyType.rustParseUInt 65535 [a, b, c] =
      (if a = '+' then
        (if b.isDigit = true ∧ c.isDigit = true then some (rpVal2 b c) else none)
       else if a.isDigit = true ∧ b.isDigit = true ∧ c.isDigit = true then
        some (rpVal3 a b c)
       else none) := by
  by_cases ha : a = '+'
  · simp [ReplyType.rustParseUInt, ha, ReplyType.rustParseUIntDigits, go_two]
  · by_cases ham : a = '-'
    · subst ham
      simp [ReplyType.rustParseUInt, ReplyType.rustParseUIntDigits,
        show ('-' : Char).isDigit = false from rfl]
    · simp [ReplyType.rustParseUInt, ha, ham, ReplyType.rustParseUIntDigits, go_three]

def inRangeR (n : Nat) : Prop := n ≤ 99 ∨ (200 ≤ n ∧ n ≤ 599)

instance (n : Nat) : Decidable (inRangeR n) :=
  inferInstanceAs (Decidable (n ≤ 99 ∨ (200 ≤ n ∧ n ≤ 599)))

def ReplyType.isUnknownBucket : ReplyType → Bool
  | .PrvUnknown _ => true
  | .RplUnknown _ => true
  | .ErrUnknown _ => true
  | _ => false

def ReplyType.bucketOf (n : Nat) : ReplyType :=
  if n ≤ 99 then .PrvUnknown n else if n ≤ 399 then .RplUnknown n else .ErrUnknown n

def ReplyType.namedOfCode (n : Nat) : Bool :=
  match ReplyType.ofCode n with
  | .ok r => !r.isUnknownBucket
  | .error _ => false

set_option maxRecDepth 100000 in
theorem ofCode_ok_iff :
    ∀ n < 1000, ((ReplyType.ofCode n).isOk = true ↔ (n ≤ 99 ∨ (200 ≤ n ∧ n ≤ 599))) := by
  decide

/-- The per-code facts of C2, phrased as a boolean so that they can be
checked for all codes below 600 by evaluation. -/
def c2AuxB (n : Nat) : Bool :=
  match ReplyType.ofCode n with
  | .ok r =>
    decide (r.render.length = 3) && r.render.all Char.isDigit
    && decide (ReplyType.fromStr r.render = .ok r)
    && (ReplyType.namedOfCode n || decide (r = ReplyType.bucketOf n))
    && (decide (r.ctorIdx ≠ 5) || (decide (r.payload = n) && decide (n ≤ 99)))
    && (decide (r.ctorIdx ≠ 85) || (decide (r.payload = n) && decide (200 ≤ n ∧ n ≤ 399)))
    && (decide (r.ctorIdx ≠ 139) || (decide (r.payload = n) && decide (400 ≤ n ∧ n ≤ 599)))
  | .error _ => true

set_option maxRecDepth 400000 in
set_option maxHeartbeats 2000000 in
theorem c2Aux_all : ∀ n < 600, c2AuxB n = true := by decide

theorem charUtf8Size_one {c : Char} (h : c.toNat ≤ 127) : charUtf8Size c = 1 := by
  unfold charUtf8Size
  rw [if_pos (by omega)]

theorem utf8Len_of_ascii {s : Str} (h : isAsciiStr s = true) : utf8Len s = s.length := by
  induction s with
  | nil => rfl
  | cons c t ih =>
    simp only [isAsciiStr, List.all_cons, Bool.and_eq_true, decide_eq_true_eq] at h
    simp only [utf8Len, List.map_cons, List.sum_cons, List.length_cons]
    rw [charUtf8Size_one h.1]
    have := ih (by simp [isAsciiStr, h.2])
    simp only [utf8Len] at this
    omega

theorem length_three {s : Str} (h : s.length = 3) : ∃ a b c, s = [a, b, c] := by
  match s, h with
  | [a, b, c], _ => exact ⟨a, b, c, rfl⟩

theorem c2_of_ok {n : Nat} {r : ReplyType} (hlt : n < 600)
    (h : ReplyType.ofCode n = .ok r) :
    r.render.length = 3 ∧ r.render.all Char.isDigit = true
    ∧ ReplyType.fromStr r.render = .ok r
    ∧ (ReplyType.namedOfCode n = false → r = ReplyType.bucketOf n)
    ∧ (r.ctorIdx = 5 → r.payload = n ∧ n ≤ 99)
    ∧ (r.ctorIdx = 85 → r.payload = n ∧ 200 ≤ n ∧ n ≤ 399)
    ∧ (r.ctorIdx = 139 → r.payload = n ∧ 400 ≤ n ∧ n ≤ 599) := by
  have hb := c2Aux_all n hlt
  unfold c2AuxB at hb
  rw [h] at hb
  simp only [Bool.and_eq_true, Bool.or_eq_true, decide_eq_true_eq] at hb
  obtain ⟨⟨⟨⟨⟨⟨h1, h2⟩, h3⟩, h4⟩, h5⟩, h6⟩, h7⟩ := hb
  refine ⟨h1, h2, h3, ?_, ?_, ?_, ?_⟩
  · intro hn
    rcases h4 with h4 | h4
    · rw [hn] at h4; cases h4
    · exact h4
  · intro hc; rcases h5 with h5 | h5
    · exact absurd hc h5
    · exact h5
  · intro hc; rcases h6 with h6 | h6
    · exact absurd hc h6
    · exact h6
  · intro hc; rcases h7 with h7 | h7
    · exact absurd hc h7
    · exact h7

theorem fromStr_ok_split {s : Str} {r : ReplyType} (h : ReplyType.fromStr s = .ok r) :
    ∃ n, ReplyType.rustParseUInt 65535 s = some n ∧ ReplyType.ofCode n = .ok r
      ∧ utf8Len s = 3 ∧ isAsciiStr s = true := by
  unfold ReplyType.fromStr at h
  by_cases hcond : utf8Len s ≠ 3 ∨ isAsciiStr s = false
  · rw [if_pos hcond] at h; cases h
  · rw [if_neg hcond] at h
    push_neg at hcond
    cases hp : ReplyType.rustParseUInt 65535 s with
    | none => rw [hp] at h; cases h
    | some n =>
      rw [hp] at h
      exact ⟨n, rfl, h, hcond.1, by simpa using hcond.2⟩

/-- C2 counterexample: `"000"` parses successfully (to `PrvUnknown 0`)
although the claim calls it a parse error, and `"+12"` — not three ASCII
digits — also parses successfully, because Rust's `u16::from_str`
accepts a leading `+`. -/
theorem c2_counterexample :
    ReplyType.fromStr (str "000") = .ok (.PrvUnknown 0)
    ∧ ReplyType.fromStr (str "+12") = .ok (.PrvUnknown 12) :=
  ⟨rfl, rfl⟩

/-- C2 (amended): `ReplyType::from_str` succeeds exactly on length-3
ASCII strings accepted by Rust's `u16` parser (three decimal digits, or
`+` followed by two) whose value is in 000–099 or 200–599; parsing and
rendering round-trip with exactly three digits, all decimal; the
`Unknown` buckets carry payloads inside their respective ranges; and
every in-range code that does not hit a named arm parses to the
matching `Unknown` bucket carrying the raw code. -/
theorem c2_amended_replyType :
    (∀ s : Str, (∃ r, ReplyType.fromStr s = .ok r) ↔
      (∃ a b c, s = [a, b, c] ∧
        ((a.isDigit = true ∧ b.isDigit = true ∧ c.isDigit = true
            ∧ inRangeR (rpVal3 a b c))
          ∨ (a = '+' ∧ b.isDigit = true ∧ c.isDigit = true ∧ inRangeR (rpVal2 b c)))))
    ∧ (∀ (s : Str) (r : ReplyType), ReplyType.fromStr s = .ok r →
        r.render.length = 3 ∧ r.render.all Char.isDigit = true
          ∧ ReplyType.fromStr r.render = .ok r)
    ∧ (∀ (s : Str) (r : ReplyType) (m : Nat), ReplyType.fromStr s = .ok r →
        ((r = .PrvUnknown m → m ≤ 99)
          ∧ (r = .RplUnknown m → 200 ≤ m ∧ m ≤ 399)
          ∧ (r = .ErrUnknown m → 400 ≤ m ∧ m ≤ 599)))
    ∧ (∀ n : Nat, inRangeR n → ReplyType.namedOfCode n = false →
        ReplyType.ofCode n = .ok (ReplyType.bucketOf n)) := by
  have keyFwd : ∀ {s : Str} {r : ReplyType}, ReplyType.fromStr s = .ok r →
      ∃ n, n < 1000 ∧ ReplyType.ofCode n = .ok r ∧ inRangeR n := by
    intro s r h
    obtain ⟨n, hp, hoc, hlen, hascii⟩ := fromStr_ok_split h
    obtain ⟨a, b, c, hs⟩ := length_three (by rw [← utf8Len_of_ascii hascii]; exact hlen)
    subst hs
    rw [rpu_three] at hp
    have hbound : n < 1000 := by
      by_cases ha : a = '+'
      · rw [if_pos ha] at hp
        by_cases hbc : b.isDigit = true ∧ c.isDigit = true
        · rw [if_pos hbc] at hp
          cases hp
          have g1 := digit_toNat_bounds hbc.1
          have g2 := digit_toNat_bounds hbc.2
          unfold rpVal2
          omega
        · rw [if_neg hbc] at hp; cases hp
      · rw [if_neg ha] at hp
        by_cases habc : a.isDigit = true ∧ b.isDigit = true ∧ c.isDigit = true
        · rw [if_pos habc] at hp
          cases hp
          have g1 := digit_toNat_bounds habc.1
          have g2 := digit_toNat_bounds habc.2.1
          have g3 := digit_toNat_bounds habc.2.2
          unfold rpVal3
          omega
        · rw [if_neg habc] at hp; cases hp
    refine ⟨n, hbound, hoc, ?_⟩
    exact (ofCode_ok_iff n hbound).mp (by rw [hoc]; rfl)
  refine ⟨?_, ?_, ?_, ?_⟩
  · intro s
    constructor
    · rintro ⟨r, h⟩
      obtain ⟨n, hp, hoc, hlen, hascii⟩ := fromStr_ok_split h
      obtain ⟨a, b, c, hs⟩ := length_three (by rw [← utf8Len_of_ascii hascii]; exact hlen)
      subst hs
      rw [rpu_three] at hp
      refine ⟨a, b, c, rfl, ?_⟩
      by_cases ha : a = '+'
      · rw [if_pos ha] at hp
        by_cases hbc : b.isDigit = true ∧ c.isDigit = true
        · rw [if_pos hbc] at hp
          cases hp
          refine Or.inr ⟨ha, hbc.1, hbc.2, ?_⟩
          have hb2 : rpVal2 b c < 1000 := by
            have g1 := digit_toNat_bounds hbc.1
            have g2 := digit_toNat_bounds hbc.2
            unfold rpVal2; omega
          exact (ofCode_ok_iff _ hb2).mp (by rw [hoc]; rfl)
        · rw [if_neg hbc] at hp; cases hp
      · rw [if_neg ha] at hp
        by_cases habc : a.isDigit = true ∧ b.isDigit = true ∧ c.isDigit = true
        · rw [if_pos habc] at hp
          cases hp
          refine Or.inl ⟨habc.1, habc.2.1, habc.2.2, ?_⟩
          have hb3 : rpVal3 a b c < 1000 := by
            have g1 := digit_toNat_bounds habc.1
            have g2 := digit_toNat_bounds habc.2.1
            have g3 := digit_toNat_bounds habc.2.2
            unfold rpVal3; omega
          exact (ofCode_ok_iff _ hb3).mp (by rw [hoc]; rfl)
        · rw [if_neg habc] at hp; cases hp
    · rintro ⟨a, b, c, hs, hcase⟩
      subst hs
      have hdig127 : ∀ d : Char, d.isDigit = true → d.toNat ≤ 127 := by
        intro d hd; have := digit_toNat_bounds hd; omega
      rcases hcase with ⟨ha, hb, hc, hrange⟩ | ⟨ha, hb, hc, hrange⟩
      · have hascii : isAsciiStr [a, b, c] = true := by
          simp [isAsciiStr]
          exact ⟨hdig127 a ha, hdig127 b hb, hdig127 c hc⟩
        have hlen : utf8Len [a, b, c] = 3 := by
          simp [utf8Len, charUtf8Size_one (hdig127 a ha),
            charUtf8Size_one (hdig127 b hb), charUtf8Size_one (hdig127 c hc)]
        have hlt : rpVal3 a b c < 1000 := by
          have g1 := digit_toNat_bounds ha
          have g2 := digit_toNat_bounds hb
          have g3 := digit_toNat_bounds hc
          unfold rpVal3; omega
        have hok := (ofCode_ok_iff _ hlt).mpr hrange
        cases hoc : ReplyType.ofCode (rpVal3 a b c) with
        | error e => rw [hoc] at hok; cases hok
        | ok r =>
          refine ⟨r, ?_⟩
          unfold ReplyType.fromStr
          rw [if_neg (by simp [hlen, hascii]), rpu_three, if_neg ?_, if_pos ⟨ha, hb, hc⟩]
          · exact hoc
          · intro hplus
            rw [hplus] at ha
            simp [Char.isDigit] at ha
      · have hascii : isAsciiStr [a, b, c] = true := by
          subst ha
          have c1 : ('+' : Char).toNat ≤ 127 := by decide
          have c2 := hdig127 b hb
          have c3 := hdig127 c hc
          simp only [isAsciiStr, List.all_cons, List.all_nil, Bool.and_true,
            Bool.and_eq_true, decide_eq_true_eq]
          omega
        have hlen : utf8Len [a, b, c] = 3 := by
          subst ha
          simp [utf8Len, charUtf8Size_one (show ('+' : Char).toNat ≤ 127 by decide),
            charUtf8Size_one (hdig127 b hb), charUtf8Size_one (hdig127 c hc)]
        have hlt : rpVal2 b c < 1000 := by
          have g1 := digit_toNat_bounds hb
          have g2 := digit_toNat_bounds hc
          unfold rpVal2; omega
        have hok := (ofCode_ok_iff _ hlt).mpr hrange
        cases hoc : ReplyType.ofCode (rpVal2 b c) with
        | error e => rw [hoc] at hok; cases hok
        | ok r =>
          refine ⟨r, ?_⟩
          unfold ReplyType.fromStr
          rw [if_neg (by simp [hlen, hascii]), rpu_three, if_pos ha, if_pos ⟨hb, hc⟩]
          exact hoc
  · intro s r h
    obtain ⟨n, hlt, hoc, hrange⟩ := keyFwd h
    have h600 : n < 600 := by rcases hrange with h1 | h1 <;> omega
    obtain ⟨h1, h2, h3, _⟩ := c2_of_ok h600 hoc
    exact ⟨h1, h2, h3⟩
  · intro s r m h
    obtain ⟨n, hlt, hoc, hrange⟩ := keyFwd h
    have h600 : n < 600 := by rcases hrange with h1 | h1 <;> omega
    obtain ⟨_, _, _, _, h5, h6, h7⟩ := c2_of_ok h600 hoc
    refine ⟨?_, ?_, ?_⟩
    · intro hr; subst hr
      obtain ⟨hp, hn⟩ := h5 rfl
      simp only [ReplyType.payload] at hp
      omega
    · intro hr; subst hr
      obtain ⟨hp, hn⟩ := h6 rfl
      simp only [ReplyType.payload] at hp
      omega
    · intro hr; subst hr
      obtain ⟨hp, hn⟩ := h7 rfl
      simp only [ReplyType.payload] at hp
      omega
  · intro n hrange hnamed
    have hlt : n < 1000 := by rcases hrange with h1 | h1 <;> omega
    have h600 : n < 600 := by rcases hrange with h1 | h1 <;> omega
    have hok := (ofCode_ok_iff n hlt).mpr hrange
    cases hoc : ReplyType.ofCode n with
    | error e => rw [hoc] at hok; cases hok
    | ok r =>
      obtain ⟨_, _, _, h4, _⟩ := c2_of_ok h600 hoc
      rw [h4 hnamed]

/-- Witness for C2 at concrete inputs. -/
theorem c2_witness :
    (ReplyType.PrvUnknown 42).render.length = 3
    ∧ ReplyType.fromStr (ReplyType.PrvUnknown 42).render = .ok (.PrvUnknown 42)
    ∧ inRangeR 250 ∧ ReplyType.namedOfCode 250 = false
    ∧ ReplyType.ofCode 250 = .ok (ReplyType.bucketOf 250) := by
  have h1 := c2_amended_replyType.2.1 (str "042") (.PrvUnknown 42) rfl
  have h2 := c2_amended_replyType.2.2.2 250 (by unfold inRangeR; omega) rfl
  exact ⟨h1.1, h1.2.2, by unfold inRangeR; omega, rfl, h2⟩

/-- The wire token of one parameter: `:`-prefixed when it contains a
space, and the placeholder `*` when it is the empty string. -/
def tokenOf (arg : Str) : Str :=
  (if ' ' ∈ arg then [':'] else []) ++ (if arg = [] then ['*'] else arg)

def tokenJoin : List Str → Str
  | [] => []
  | [a] => tokenOf a
  | a :: b :: t => tokenOf a ++ ' ' :: tokenJoin (b :: t)

theorem tokenOf_ne_nil (arg : Str) : tokenOf arg ≠ [] := by
  unfold tokenOf
  by_cases hsp : ' ' ∈ arg <;> by_cases he : arg = [] <;> simp [hsp, he]

theorem tokenJoin_eq_nil_iff (l : List Str) : tokenJoin l = [] ↔ l = [] := by
  match l with
  | [] => simp [tokenJoin]
  | [a] => simp [tokenJoin, tokenOf_ne_nil a]
  | a :: b :: t => simp [tokenJoin, tokenOf_ne_nil a]

theorem tokenJoin_append_single (l : List Str) (x : Str) :
    tokenJoin (l ++ [x]) =
      if l = [] then tokenOf x else tokenJoin l ++ ' ' :: tokenOf x := by
  induction l with
  | nil => simp [tokenJoin]
  | cons a t ih =>
    cases t with
    | nil => simp [tokenJoin]
    | cons b t' =>
      have ih' : tokenJoin (b :: t' ++ [x]) = tokenJoin (b :: t') ++ ' ' :: tokenOf x := by
        simpa using ih
      rw [if_neg (by simp)]
      show tokenOf a ++ ' ' :: tokenJoin (b :: t' ++ [x])
        = (tokenOf a ++ ' ' :: tokenJoin (b :: t')) ++ ' ' :: tokenOf x
      rw [ih']
      simp

theorem renderStep_nil_spec (flag : Bool) (x : Str) :
    MessageParams.renderStep ([], flag) x = (tokenOf x, decide (x = [])) := by
  unfold MessageParams.renderStep tokenOf
  by_cases hx : x = []
  · subst hx; simp
  · by_cases hsp : ' ' ∈ x <;> simp [hx, hsp]

theorem renderStep_spec (r : Str) (flag : Bool) (x : Str) (hr : r ≠ []) :
    MessageParams.renderStep (r, flag) x = (r ++ ' ' :: tokenOf x, decide (x = [])) := by
  unfold MessageParams.renderStep tokenOf
  by_cases hx : x = []
  · subst hx; simp [hr]
  · by_cases hsp : ' ' ∈ x <;> simp [hx, hsp, hr]

theorem renderFold_spec (l : List Str) :
    l.foldl MessageParams.renderStep ([], false) =
      (tokenJoin l, decide (l.getLast? = some [])) := by
  induction l using List.reverseRecOn with
  | nil => rfl
  | append_singleton l x ih =>
    rw [List.foldl_append, ih, List.foldl_cons, List.foldl_nil]
    by_cases hl : l = []
    · subst hl
      rw [show tokenJoin [] = [] from rfl, renderStep_nil_spec]
      simp [tokenJoin]
    · have hjoin : tokenJoin l ≠ [] := by
        rw [ne_eq, tokenJoin_eq_nil_iff]; exact hl
      rw [renderStep_spec _ _ _ hjoin, tokenJoin_append_single, if_neg hl]
      simp

/-- C9: in `MessageParams` rendering every empty parameter is emitted
as `*`, and only when the final parameter is empty is that trailing `*`
replaced by `:`; a non-final empty parameter therefore renders as a
literal `*`, which re-parses as the text `"*"`, and the SERVICE
serializer obtains its reserved `*` placeholder from exactly this
behaviour. -/
theorem c9_render_star_placeholder :
    (∀ (l : List Str) (hs : Bool),
      MessageParams.render ⟨l, hs⟩ =
        if l.getLast? = some [] then (tokenJoin l).dropLast ++ [':'] else tokenJoin l)
    ∧ MessageParams.render ⟨[str "a", [], str "b"], false⟩ = str "a * b"
    ∧ MessageParams.fromStr (str "a * b") = .ok ⟨[str "a", str "*", str "b"], false⟩
    ∧ Command.render (.Service ⟨str "dict"⟩ ⟨str "*.fr"⟩ (str "French Dictionary")) =
        some (str "SERVICE dict * *.fr 0 0 :French Dictionary") := by
  refine ⟨?_, by decide, by decide, by decide⟩
  intro l hs
  unfold MessageParams.render
  rw [renderFold_spec]
  by_cases hlast : l.getLast? = some [] <;> simp [hlast]

/-- C1 (code bug): parse/render round-tripping fails for a trailing
parameter that itself begins with `:`.  `"PASS ::x\r\n"` parses to the
password `":x"`, but rendering that message produces `"PASS :x"` — the
renderer prepends a `:` marker only for parameters containing a space —
and re-parsing yields the password `"x"`, a different value.  The same
failure exists at the `Command` level. -/
theorem c1_roundtrip_failure :
    Message.fromStr (str "PASS ::x\r\n") = .ok ⟨none, .Command (.Pass (str ":x"))⟩
    ∧ Message.render ⟨none, .Command (.Pass (str ":x"))⟩ = some (str "PASS :x")
    ∧ Message.fromStr (str "PASS :x" ++ str "\r\n") = .ok ⟨none, .Command (.Pass (str "x"))⟩
    ∧ (⟨none, .Command (.Pass (str "x"))⟩ : Message) ≠ ⟨none, .Command (.Pass (str ":x"))⟩
    ∧ Command.render (.Pass (str ":x")) = some (str "PASS :x")
    ∧ Command.fromStr (str "PASS :x") = .ok (.Pass (str "x")) := by
  refine ⟨by decide, by decide, by decide, by decide, by decide, by decide⟩

/-! C3 support -/

def spaceTokens (s : Str) : List Str := (splitOnChar ' ' s).filter (fun e => !e.isEmpty)

theorem splitFirstSpace_no_space {v : Str} (h : ' ' ∉ v) :
    splitFirstSpace v = (v, none) := by
  induction v with
  | nil => rfl
  | cons c t ih =>
    simp only [List.mem_cons, not_or] at h
    have hc : ¬(c = ' ') := fun hx => h.1 hx.symm
    rw [show splitFirstSpace (c :: t)
        = if c = ' ' then (([] : Str), some t)
          else (c :: (splitFirstSpace t).1, (splitFirstSpace t).2) from rfl]
    rw [if_neg hc, ih h.2]

theorem splitFirstSpace_append {u r : Str} (h : ' ' ∉ u) :
    splitFirstSpace (u ++ ' ' :: r) = (u, some r) := by
  induction u with
  | nil => simp [splitFirstSpace]
  | cons c t ih =>
    simp only [List.mem_cons, not_or] at h
    have hc : ¬(c = ' ') := fun hx => h.1 hx.symm
    rw [show splitFirstSpace ((c :: t) ++ ' ' :: r)
        = if c = ' ' then (([] : Str), some (t ++ ' ' :: r))
          else (c :: (splitFirstSpace (t ++ ' ' :: r)).1,
            (splitFirstSpace (t ++ ' ' :: r)).2) from rfl]
    rw [if_neg hc, ih h.2]

theorem splitOnChar_ne_nil (sep : Char) (s : Str) : splitOnChar sep s ≠ [] := by
  cases s with
  | nil => simp [splitOnChar]
  | cons c t =>
    by_cases hc : c = sep
    · simp [splitOnChar, hc]
    · rw [splitOnChar, if_neg hc]
      cases hsp : splitOnChar sep t with
      | nil => simp
      | cons h rest => simp

theorem splitOnChar_sep_append (sep : Char) (a b : Str) :
    splitOnChar sep (a ++ sep :: b) = splitOnChar sep a ++ splitOnChar sep b := by
  induction a with
  | nil => simp [splitOnChar]
  | cons c t ih =>
    by_cases hc : c = sep
    · simp [splitOnChar, hc, ih]
    · simp only [List.cons_append]
      rw [splitOnChar, if_neg hc, ih]
      rw [splitOnChar, if_neg hc]
      cases hsp : splitOnChar sep t with
      | nil => exact absurd hsp (splitOnChar_ne_nil sep t)
      | cons h rest => simp

theorem splitOnChar_no_sep {sep : Char} {v : Str} (h : sep ∉ v) :
    splitOnChar sep v = [v] := by
  induction v with
  | nil => rfl
  | cons c t ih =>
    simp only [List.mem_cons, not_or] at h
    have hc : ¬(c = sep) := fun hx => h.1 hx.symm
    rw [splitOnChar, if_neg hc, ih h.2]

theorem last_space_split {s : Str} (h : ' ' ∈ s) :
    ∃ u v, s = u ++ ' ' :: v ∧ ' ' ∉ v := by
  induction s with
  | nil => cases h
  | cons c t ih =>
    by_cases ht : ' ' ∈ t
    · obtain ⟨u, v, h1, h2⟩ := ih ht
      exact ⟨c :: u, v, by rw [h1]; rfl, h2⟩
    · have hc : c = ' ' := by
        rcases List.mem_cons.mp h with h1 | h1
        · exact h1.symm
        · exact absurd h1 ht
      exact ⟨[], t, by subst hc; simp, ht⟩

theorem spaceTokens_nil : spaceTokens [] = [] := rfl

theorem spaceTokens_append (a b : Str) :
    spaceTokens (a ++ ' ' :: b) = spaceTokens a ++ spaceTokens b := by
  unfold spaceTokens
  rw [splitOnChar_sep_append, List.filter_append]

theorem spaceTokens_no_space {v : Str} (hsp : ' ' ∉ v) (hne : v ≠ []) :
    spaceTokens v = [v] := by
  unfold spaceTokens
  rw [splitOnChar_no_sep hsp]
  simp [hne]

theorem spaceTokens_cons_space (t : Str) : spaceTokens (' ' :: t) = spaceTokens t := by
  unfold spaceTokens
  rw [show splitOnChar ' ' (' ' :: t) = [] :: splitOnChar ' ' t from by
    rw [splitOnChar, if_pos rfl]]
  simp

/-- One-step equation of `fromStrGo` on a non-empty remainder. -/
theorem fromStrGo_cons (fuel : Nat) (c : Char) (t : Str) (args : List Str) :
    MessageParams.fromStrGo (fuel + 1) (c :: t) args =
      if c = ':' ∨ 14 ≤ args.length then args ++ [stripColon (c :: t)]
      else
        match splitFirstSpace (c :: t) with
        | (tok, none) => args ++ [tok]
        | (tok, some rest) =>
          MessageParams.fromStrGo fuel rest (if tok = [] then args else args ++ [tok]) := rfl

theorem fromStrGo_fuel_mono : ∀ (f1 f2 : Nat) (s : Str) (args : List Str),
    s.length < f1 → s.length < f2 →
    MessageParams.fromStrGo f1 s args = MessageParams.fromStrGo f2 s args := by
  intro f1
  induction f1 with
  | zero => intro f2 s args h1; omega
  | succ f1 ih =>
    intro f2 s args h1 h2
    cases f2 with
    | zero => omega
    | succ f2 =>
      cases s with
      | nil => rfl
      | cons c t =>
        rw [fromStrGo_cons, fromStrGo_cons]
        by_cases hfire : c = ':' ∨ 14 ≤ args.length
        · rw [if_pos hfire, if_pos hfire]
        · rw [if_neg hfire, if_neg hfire]
          cases hss : splitFirstSpace (c :: t) with
          | mk tok orest =>
            cases orest with
            | none => rfl
            | some rest =>
              have hlt := splitFirstSpace_rest_lt hss
              simp only []
              exact ih f2 rest _ (by simp at h1 hlt ⊢; omega) (by simp at h2 hlt ⊢; omega)

theorem fromStrGo_token_step {fuel : Nat} {v : Str} {args : List Str}
    (hf : v.length < fuel) (hsp : ' ' ∉ v) (hh : v.head? ≠ some ':')
    (hlen : args.length ≤ 13) :
    MessageParams.fromStrGo fuel v args = args ++ (if v = [] then [] else [v]) := by
  cases fuel with
  | zero => omega
  | succ fuel =>
    cases v with
    | nil => simp [MessageParams.fromStrGo]
    | cons c t =>
      have hc : ¬(c = ':') := by simpa using hh
      rw [fromStrGo_cons, if_neg (by push_neg; exact ⟨hc, by omega⟩)]
      rw [splitFirstSpace_no_space hsp]
      simp

theorem fromStrGo_fire14 {fuel : Nat} {w : Str} {args : List Str}
    (hf : w.length < fuel) (hlen : args.length = 14) :
    MessageParams.fromStrGo fuel w args = args ++ (if w = [] then [] else [stripColon w]) := by
  cases fuel with
  | zero => omega
  | succ fuel =>
    cases w with
    | nil => simp [MessageParams.fromStrGo]
    | cons c t =>
      rw [fromStrGo_cons, if_pos (Or.inr (by omega))]
      simp

theorem fromStrGo_first_token {fuel : Nat} {tok rest2 : Str} {args : List Str}
    (hsp : ' ' ∉ tok) (hne : tok ≠ []) (hh : tok.head? ≠ some ':')
    (hlen : args.length ≤ 13) :
    MessageParams.fromStrGo (fuel + 1) (tok ++ ' ' :: rest2) args =
      MessageParams.fromStrGo fuel rest2 (args ++ [tok]) := by
  cases tok with
  | nil => exact absurd rfl hne
  | cons c t =>
    have hc : ¬(c = ':') := by simpa using hh
    rw [show (c :: t) ++ ' ' :: rest2 = c :: (t ++ ' ' :: rest2) from rfl]
    rw [fromStrGo_cons, if_neg (by push_neg; exact ⟨hc, by omega⟩)]
    rw [show splitFirstSpace (c :: (t ++ ' ' :: rest2)) = (c :: t, some rest2) from
      splitFirstSpace_append hsp]
    simp

theorem fromStrGo_consume (fuel : Nat) :
    ∀ (u rest : Str) (args : List Str),
      (u ++ ' ' :: rest).length < fuel →
      (∀ e ∈ splitOnChar ' ' u, e.head? ≠ some ':') →
      args.length + (spaceTokens u).length ≤ 13 →
      MessageParams.fromStrGo fuel (u ++ ' ' :: rest) args =
        MessageParams.fromStrGo (rest.length + 1) rest (args ++ spaceTokens u) := by
  induction fuel with
  | zero => intro u rest args h1; omega
  | succ fuel ih =>
    intro u rest args hf he hsum
    cases u with
    | nil =>
      simp only [List.nil_append]
      rw [fromStrGo_cons, if_neg (by
        push_neg
        refine ⟨by decide, ?_⟩
        rw [spaceTokens_nil] at hsum
        simp at hsum
        omega)]
      rw [show splitFirstSpace (' ' :: rest) = ([], some rest) from by
        rw [show splitFirstSpace (' ' :: rest)
            = if ' ' = ' ' then (([] : Str), some rest)
              else (' ' :: (splitFirstSpace rest).1, (splitFirstSpace rest).2) from rfl]
        rw [if_pos rfl]]
      simp only [spaceTokens_nil, List.append_nil]
      exact fromStrGo_fuel_mono fuel (rest.length + 1) rest args
        (by simp at hf; omega) (by omega)
    | cons c t =>
      by_cases hc : c = ' '
      · subst hc
        have he' : ∀ e ∈ splitOnChar ' ' t, e.head? ≠ some ':' := by
          intro e hee
          refine he e ?_
          rw [show splitOnChar ' ' (' ' :: t) = [] :: splitOnChar ' ' t from by
            rw [splitOnChar, if_pos rfl]]
          exact List.mem_cons_of_mem _ hee
        have hsum' : args.length + (spaceTokens t).length ≤ 13 := by
          rwa [spaceTokens_cons_space] at hsum
        simp only [List.cons_append]
        rw [fromStrGo_cons, if_neg (by
          push_neg
          refine ⟨by decide, ?_⟩
          omega)]
        rw [show splitFirstSpace (' ' :: (t ++ ' ' :: rest))
            = ([], some (t ++ ' ' :: rest)) from by
          rw [show splitFirstSpace (' ' :: (t ++ ' ' :: rest))
              = if ' ' = ' ' then (([] : Str), some (t ++ ' ' :: rest))
                else (' ' :: (splitFirstSpace (t ++ ' ' :: rest)).1,
                  (splitFirstSpace (t ++ ' ' :: rest)).2) from rfl]
          rw [if_pos rfl]]
        simp only []
        rw [show (if True then args else args ++ [([] : Str)]) = args from rfl]
        rw [ih t rest args (by simp at hf ⊢; omega) he' hsum']
        rw [spaceTokens_cons_space]
      · by_cases hsp : ' ' ∈ (c :: t)
        · cases hss : splitFirstSpace (c :: t) with
          | mk tok orest =>
            cases orest with
            | none => exact absurd hsp ((splitFirstSpace_none hss).2)
            | some u2 =>
              obtain ⟨hdecomp, htoksp⟩ := splitFirstSpace_some hss
              have htokne : tok ≠ [] := by
                intro hnil
                rw [hnil] at hdecomp
                simp at hdecomp
                exact hc hdecomp.1
              obtain ⟨c2, tok', htokeq⟩ : ∃ c2 tok', tok = c2 :: tok' := by
                cases tok with
                | nil => exact absurd rfl htokne
                | cons a b => exact ⟨a, b, rfl⟩
              have hc2 : c2 = c := by
                rw [htokeq] at hdecomp
                simp at hdecomp
                exact hdecomp.1.symm
              have hsplitu : splitOnChar ' ' (c :: t) = tok :: splitOnChar ' ' u2 := by
                rw [hdecomp, splitOnChar_sep_append, splitOnChar_no_sep htoksp]
                rfl
              have hcne : ¬(c = ':') := by
                have := he tok (by rw [hsplitu]; exact List.mem_cons_self _ _)
                rw [htokeq] at this
                simp at this
                rw [← hc2]
                exact this
              have htokens : spaceTokens (c :: t) = tok :: spaceTokens u2 := by
                rw [hdecomp, spaceTokens_append, spaceTokens_no_space htoksp htokne]
                rfl
              have hinput : (c :: t) ++ ' ' :: rest = tok ++ ' ' :: (u2 ++ ' ' :: rest) := by
                rw [hdecomp]
                simp
              have hhead : tok.head? ≠ some ':' :=
                he tok (by rw [hsplitu]; exact List.mem_cons_self _ _)
              have hsum1 : args.length + 1 + (spaceTokens u2).length ≤ 13 := by
                rw [htokens] at hsum
                simp at hsum
                omega
              rw [hinput, fromStrGo_first_token htoksp htokne hhead (by omega)]
              rw [ih u2 rest (args ++ [tok])
                (by
                  have hL := congrArg List.length hdecomp
                  have htl : 1 ≤ tok.length := by
                    rw [htokeq]; exact Nat.succ_le_succ (Nat.zero_le _)
                  simp at hL hf ⊢
                  omega)
                (by
                  intro e hee
                  refine he e ?_
                  rw [hsplitu]
                  exact List.mem_cons_of_mem _ hee)
                (by simp; omega)]
              rw [htokens]
              simp
        · -- no space inside the first (only) token
          have htokne : (c :: t) ≠ [] := by simp
          have hcne : ¬(c = ':') := by
            have := he (c :: t) (by rw [splitOnChar_no_sep hsp]; exact List.mem_cons_self _ _)
            simpa using this
          have hst : spaceTokens (c :: t) = [c :: t] := spaceTokens_no_space hsp htokne
          have hsum' : args.length ≤ 13 := by
            rw [hst] at hsum
            simp at hsum
            omega
          have hhead : (c :: t).head? ≠ some ':' := by simpa using hcne
          rw [show (c :: t) ++ ' ' :: rest = c :: (t ++ ' ' :: rest) from rfl] at hf ⊢
          rw [show (c :: (t ++ ' ' :: rest)) = (c :: t) ++ ' ' :: rest from rfl]
          rw [fromStrGo_first_token hsp htokne hhead hsum']
          rw [hst]
          exact fromStrGo_fuel_mono fuel (rest.length + 1) rest (args ++ [c :: t])
            (by simp at hf; omega) (by omega)

theorem fromStrGo_colon_fire {fuel : Nat} {w : Str} {args : List Str}
    (hf : (':' :: w).length < fuel) :
    MessageParams.fromStrGo fuel (':' :: w) args = args ++ [w] := by
  cases fuel with
  | zero => omega
  | succ fuel =>
    rw [fromStrGo_cons, if_pos (Or.inl rfl)]
    rfl

/-- C3: `MessageParams::from_str` tokenizes its input by splitting on spaces
(skipping empty tokens), never yields more than 15 parameters, treats the first
token beginning with ':' as ending the split with the remainder after the ':'
taken verbatim as the trailing parameter — whether that token follows a space
or opens the input, at any accumulation point — and once 14 parameters have
accumulated takes the entire remainder (with one leading ':' stripped) as the
15th parameter. -/
theorem c3_tokenization :
    (∀ (raw : Str) (p : MessageParams),
      MessageParams.fromStr raw = .ok p → p.args.length ≤ 15)
    ∧ (∀ raw : Str,
        (∀ e ∈ splitOnChar ' ' raw, e.head? ≠ some ':') →
        (spaceTokens raw).length ≤ 13 →
        MessageParams.fromStrGo (raw.length + 1) raw [] = spaceTokens raw)
    ∧ (∀ u w : Str,
        (∀ e ∈ splitOnChar ' ' u, e.head? ≠ some ':') →
        (spaceTokens u).length ≤ 13 →
        MessageParams.fromStrGo ((u ++ ' ' :: ':' :: w).length + 1)
            (u ++ ' ' :: ':' :: w) []
          = spaceTokens u ++ [w])
    ∧ (∀ (fuel : Nat) (w : Str) (args : List Str),
        w.length < fuel → args.length = 14 →
        MessageParams.fromStrGo fuel w args
          = args ++ if w = [] then [] else [stripColon w])
    ∧ (∀ (fuel : Nat) (w : Str) (args : List Str),
        (':' :: w).length < fuel →
        MessageParams.fromStrGo fuel (':' :: w) args = args ++ [w])
    ∧ (∀ w : Str,
        MessageParams.fromStr (':' :: w)
          = .ok ⟨[w], decide (' ' ∈ w)⟩) := by
  refine ⟨?_, ?_, ?_, ?_, ?_, ?_⟩
  · intro raw p h
    simp only [MessageParams.fromStr, Except.ok.injEq] at h
    rw [← h]
    have hb := fromStrGo_length (raw.length + 1) raw []
    simp only [List.length_nil] at hb
    show (MessageParams.fromStrGo (raw.length + 1) raw []).length ≤ 15
    omega
  · intro raw he hlen
    by_cases hsp : ' ' ∈ raw
    · obtain ⟨u, v, hdecomp, hvsp⟩ := last_space_split hsp
      subst hdecomp
      have heu : ∀ e ∈ splitOnChar ' ' u, e.head? ≠ some ':' := by
        intro e hee
        refine he e ?_
        rw [splitOnChar_sep_append]
        exact List.mem_append_left _ hee
      have hev : v.head? ≠ some ':' := by
        refine he v ?_
        rw [splitOnChar_sep_append]
        refine List.mem_append_right _ ?_
        rw [splitOnChar_no_sep hvsp]
        exact List.mem_cons_self _ _
      rw [spaceTokens_append] at hlen
      have hu13 : (spaceTokens u).length ≤ 13 := by
        simp at hlen
        omega
      rw [fromStrGo_consume _ u v [] (by omega) heu (by simpa using hu13)]
      rw [fromStrGo_token_step (Nat.lt_succ_self _) hvsp hev (by simpa using hu13)]
      rw [spaceTokens_append]
      by_cases hv : v = []
      · subst hv
        simp [spaceTokens_nil]
      · rw [spaceTokens_no_space hvsp hv, if_neg hv]
        simp
    · by_cases hraw : raw = []
      · subst hraw
        rfl
      · have hhead : raw.head? ≠ some ':' := by
          refine he raw ?_
          rw [splitOnChar_no_sep hsp]
          exact List.mem_cons_self _ _
        rw [fromStrGo_token_step (Nat.lt_succ_self _) hsp hhead (by simp)]
        rw [spaceTokens_no_space hsp hraw, if_neg hraw]
        simp
  · intro u w he hlen
    rw [fromStrGo_consume _ u (':' :: w) [] (by omega) he (by simpa using hlen)]
    rw [fromStrGo_cons, if_pos (Or.inl rfl)]
    rw [show stripColon (':' :: w) = w from rfl]
    simp
  · intro fuel w args hf hl
    exact fromStrGo_fire14 hf hl
  · intro fuel w args hf
    exact fromStrGo_colon_fire hf
  · intro w
    simp only [MessageParams.fromStr]
    rw [fromStrGo_colon_fire (Nat.lt_succ_self _)]
    simp

theorem c3_witness :
    (MessageParams.fromStrGo
        ((("a b".toList) ++ ' ' :: ':' :: ("c d".toList)).length + 1)
        (("a b".toList) ++ ' ' :: ':' :: ("c d".toList)) []
      = spaceTokens ("a b".toList) ++ ["c d".toList])
    ∧ MessageParams.fromStr (':' :: "Gone to lunch".toList)
        = .ok ⟨["Gone to lunch".toList], decide (' ' ∈ "Gone to lunch".toList)⟩ :=
  ⟨c3_tokenization.2.2.1 ("a b".toList) ("c d".toList) (by decide) (by decide),
   c3_tokenization.2.2.2.2.2 ("Gone to lunch".toList)⟩

/-! C7 support -/

theorem mem_splitOnChar {sep c : Char} {s : Str} (hc : c ∈ s) (hne : c ≠ sep) :
    ∃ part ∈ splitOnChar sep s, c ∈ part := by
  induction s with
  | nil => cases hc
  | cons d t ih =>
    by_cases hd : d = sep
    · have hct : c ∈ t := by
        rcases List.mem_cons.mp hc with h | h
        · exact absurd (h.trans hd) hne
        · exact h
      obtain ⟨part, hp, hcp⟩ := ih hct
      refine ⟨part, ?_, hcp⟩
      rw [show splitOnChar sep (d :: t)
          = if d = sep then [] :: splitOnChar sep t
            else match splitOnChar sep t with
              | h :: rest => (d :: h) :: rest
              | [] => [[d]] from rfl]
      rw [if_pos hd]
      exact List.mem_cons_of_mem _ hp
    · cases hsp : splitOnChar sep t with
      | nil => exact absurd hsp (splitOnChar_ne_nil sep t)
      | cons hpart rest =>
        have hsplit : splitOnChar sep (d :: t) = (d :: hpart) :: rest := by
          rw [show splitOnChar sep (d :: t)
              = if d = sep then [] :: splitOnChar sep t
                else match splitOnChar sep t with
                  | h :: rest => (d :: h) :: rest
                  | [] => [[d]] from rfl]
          rw [if_neg hd, hsp]
        rcases List.mem_cons.mp hc with hceq | hct
        · exact ⟨d :: hpart, by rw [hsplit]; exact List.mem_cons_self _ _,
            by rw [hceq]; exact List.mem_cons_self _ _⟩
        · obtain ⟨part, hp, hcp⟩ := ih hct
          rw [hsp] at hp
          rcases List.mem_cons.mp hp with hpe | hpr
          · exact ⟨d :: hpart, by rw [hsplit]; exact List.mem_cons_self _ _,
              List.mem_cons_of_mem _ (hpe ▸ hcp)⟩
          · exact ⟨part, by rw [hsplit]; exact List.mem_cons_of_mem _ hpr, hcp⟩

theorem maskFromString_some {raw s : Str} (h : maskFromString raw = some s) :
    s = raw ∧ 2 < utf8Len raw ∧ (splitOnChar '.' raw).all maskPartOk = true := by
  unfold maskFromString at h
  by_cases hc : (2 < utf8Len raw ∧ isAsciiStr raw = true ∧ '.' ∈ raw
      ∧ ((splitOnChar '.' raw).getLast?.map
          (fun l => l.any (fun c => c = '*' ∨ c = '?'))).getD true = false)
  · rw [if_pos hc] at h
    by_cases hall : (splitOnChar '.' raw).all maskPartOk = true
    · rw [if_pos hall] at h
      exact ⟨(Option.some.inj h).symm, hc.1, hall⟩
    · rw [if_neg hall] at h
      exact absurd h (by simp)
  · rw [if_neg hc] at h
    exact absurd h (by simp)

theorem maskFromString_not_mem {raw : Str} {c : Char}
    (hall : (splitOnChar '.' raw).all maskPartOk = true)
    (hcdot : c ≠ '.')
    (hcbad : (c.isAlphanum || c = '*' || c = '?' || c = '-') = false) :
    c ∉ raw := by
  intro hc
  obtain ⟨part, hp, hcp⟩ := mem_splitOnChar hc hcdot
  have hpart := (List.all_eq_true.mp hall) part hp
  cases part with
  | nil => cases hcp
  | cons c0 t0 =>
    rw [show maskPartOk (c0 :: t0)
        = ((c0.isAlphanum || c0 = '*' || c0 = '?')
          && (((c0 :: t0).getLast?.map
              (fun c => c.isAlphanum || c = '*' || c = '?')).getD false)
          && (c0 :: t0).all
              (fun c => c.isAlphanum || c = '*' || c = '?' || c = '-')) from rfl] at hpart
    simp only [Bool.and_eq_true, List.all_eq_true] at hpart
    have hcc := hpart.2 c hcp
    rw [hcbad] at hcc
    cases hcc

theorem serverMask_fromStr_ok {raw : Str} {m : ServerMask}
    (h : ServerMask.fromStr raw = .ok m) :
    m = ⟨raw⟩ ∧ raw ≠ [] ∧ ' ' ∉ raw ∧ ':' ∉ raw := by
  unfold ServerMask.fromStr at h
  cases hm : maskFromString raw with
  | none => rw [hm] at h; exact absurd h (by simp)
  | some s =>
    rw [hm] at h
    obtain ⟨hs, hlen, hall⟩ := maskFromString_some hm
    subst hs
    refine ⟨(Except.ok.inj h).symm, ?_, ?_, ?_⟩
    · intro hnil
      subst hnil
      exact absurd hlen (by decide)
    · exact maskFromString_not_mem hall (by decide) (by decide)
    · exact maskFromString_not_mem hall (by decide) (by decide)

theorem messageParams_fromStr_pair {a b : Str}
    (hnea : a ≠ []) (hneb : b ≠ []) (hspa : ' ' ∉ a) (hspb : ' ' ∉ b)
    (hha : a.head? ≠ some ':') (hhb : b.head? ≠ some ':') :
    MessageParams.fromStr (a ++ ' ' :: b) = .ok ⟨[a, b], false⟩ := by
  have halen : 1 ≤ a.length := List.length_pos.mpr hnea
  have hgo : MessageParams.fromStrGo ((a ++ ' ' :: b).length + 1) (a ++ ' ' :: b) []
      = [a, b] := by
    rw [fromStrGo_first_token hspa hnea hha (by simp)]
    rw [fromStrGo_token_step (by simp; omega) hspb hhb (by simp)]
    rw [if_neg hneb]
    simp
  simp only [MessageParams.fromStr]
  rw [hgo]
  simp [hspb]

theorem commandDispatch_links2 (raw_args a b : Str) (hs : Bool) :
    commandDispatch "LINKS" raw_args ⟨[a, b], hs⟩
      = (ServerMask.fromStr b).bind (fun mb =>
          (ServerMask.fromStr a).bind (fun ma =>
            Except.ok (.Links (some mb) (some ma)))) := rfl

theorem commandFromStr_links2 (a b : Str) (ma mb : ServerMask)
    (ha : ServerMask.fromStr a = .ok ma) (hb : ServerMask.fromStr b = .ok mb) :
    Command.fromStr (str "LINKS" ++ ' ' :: (a ++ ' ' :: b))
      = .ok (.Links (some mb) (some ma)) := by
  obtain ⟨hma, hnea, hspa, hca⟩ := serverMask_fromStr_ok ha
  obtain ⟨hmb, hneb, hspb, hcb⟩ := serverMask_fromStr_ok hb
  have hha : a.head? ≠ some ':' := by
    cases a with
    | nil => simp
    | cons c t =>
      intro hcc
      have hc : c = ':' := by simpa using hcc
      exact hca (hc ▸ List.mem_cons_self _ _)
  have hhb : b.head? ≠ some ':' := by
    cases b with
    | nil => simp
    | cons c t =>
      intro hcc
      have hc : c = ':' := by simpa using hcc
      exact hcb (hc ▸ List.mem_cons_self _ _)
  have hfs : Command.fromStr (str "LINKS" ++ ' ' :: (a ++ ' ' :: b))
      = (MessageParams.fromStr
            ((splitFirstSpace (str "LINKS" ++ ' ' :: (a ++ ' ' :: b))).2.getD [])).bind
          (fun args =>
            commandDispatch
              (splitFirstSpace (str "LINKS" ++ ' ' :: (a ++ ' ' :: b))).1.asString
              ((splitFirstSpace (str "LINKS" ++ ' ' :: (a ++ ' ' :: b))).2.getD [])
              args) := rfl
  have hsplit : splitFirstSpace (str "LINKS" ++ ' ' :: (a ++ ' ' :: b))
      = (str "LINKS", some (a ++ ' ' :: b)) := splitFirstSpace_append (by decide)
  rw [hfs, hsplit]
  simp only [Option.getD_some]
  rw [messageParams_fromStr_pair hnea hneb hspa hspb hha hhb]
  show commandDispatch "LINKS" (a ++ ' ' :: b) ⟨[a, b], false⟩
    = Except.ok (.Links (some mb) (some ma))
  rw [commandDispatch_links2, hb]
  show ((ServerMask.fromStr a).bind fun ma0 =>
      Except.ok (Command.Links (some mb) (some ma0)))
    = Except.ok (Command.Links (some mb) (some ma))
  rw [ha]
  rfl

theorem tokenOf_plain {a : Str} (hsp : ' ' ∉ a) (hne : a ≠ []) : tokenOf a = a := by
  unfold tokenOf
  rw [if_neg hsp, if_neg hne]
  simp

theorem withVerb_pair {a b : Str}
    (hnea : a ≠ []) (hneb : b ≠ []) (hspa : ' ' ∉ a) (hspb : ' ' ∉ b) :
    withVerb "LINKS" [a, b] = some (str "LINKS" ++ ' ' :: (a ++ ' ' :: b)) := by
  have hpush1 : MessageParams.new.push a = (⟨[a], false⟩, none) := by
    unfold MessageParams.push MessageParams.new
    rw [if_neg (by simp), if_neg hspa]
    rfl
  have hpush2 : (⟨[a], false⟩ : MessageParams).push b = (⟨[a, b], false⟩, none) := by
    unfold MessageParams.push
    rw [if_neg (by simp), if_neg hspb]
    rfl
  have hfv : MessageParams.fromVec [a, b] = some ⟨[a, b], false⟩ := by
    unfold MessageParams.fromVec
    simp only [MessageParams.fromVecGo, hpush1, hpush2]
  unfold withVerb
  rw [hfv]
  show some (MessageParams.toStringWithVerb ⟨[a, b], false⟩ (String.toList "LINKS"))
    = some (str "LINKS" ++ ' ' :: (a ++ ' ' :: b))
  unfold MessageParams.toStringWithVerb MessageParams.render
  rw [renderFold_spec]
  have hlast : [a, b].getLast? = some b := rfl
  rw [hlast]
  rw [show (decide (some b = some ([] : Str))) = false from by simp [hneb]]
  rw [show tokenJoin [a, b] = tokenOf a ++ ' ' :: tokenOf b from rfl]
  rw [tokenOf_plain hspa hnea, tokenOf_plain hspb hneb]
  rfl

/-- C7: parsing the two-argument wire form `LINKS a b` stores the first wire
parameter `a` as the `target` field and the second `b` as the `mask` field of
`Command.Links`, and rendering a `Links` with both fields present emits the
target before the mask on the wire, so parse and render agree on the
(mask, target) inversion. -/
theorem c7_links_inversion (a b : Str) (ma mb : ServerMask)
    (ha : ServerMask.fromStr a = .ok ma) (hb : ServerMask.fromStr b = .ok mb) :
    Command.fromStr (str "LINKS" ++ ' ' :: (a ++ ' ' :: b))
        = .ok (.Links (some mb) (some ma))
    ∧ Command.render (.Links (some mb) (some ma))
        = some (str "LINKS" ++ ' ' :: (a ++ ' ' :: b)) := by
  obtain ⟨hma, hnea, hspa, hca⟩ := serverMask_fromStr_ok ha
  obtain ⟨hmb, hneb, hspb, hcb⟩ := serverMask_fromStr_ok hb
  refine ⟨commandFromStr_links2 a b ma mb ha hb, ?_⟩
  show withVerb "LINKS" [ma.render, mb.render]
    = some (str "LINKS" ++ ' ' :: (a ++ ' ' :: b))
  rw [hma, hmb]
  show withVerb "LINKS" [a, b] = some (str "LINKS" ++ ' ' :: (a ++ ' ' :: b))
  exact withVerb_pair hnea hneb hspa hspb

theorem c7_witness :
    Command.fromStr (str "LINKS" ++ ' ' :: (str "*.edu" ++ ' ' :: str "*.bu.edu"))
        = .ok (.Links (some ⟨str "*.bu.edu"⟩) (some ⟨str "*.edu"⟩))
    ∧ Command.render (.Links (some ⟨str "*.bu.edu"⟩) (some ⟨str "*.edu"⟩))
        = some (str "LINKS" ++ ' ' :: (str "*.edu" ++ ' ' :: str "*.bu.edu")) :=
  c7_links_inversion (str "*.edu") (str "*.bu.edu") ⟨str "*.edu"⟩ ⟨str "*.bu.edu"⟩
    (by decide) (by decide)

/-- C5: `Recipient::from_str` resolves ambiguity in exactly the documented
order: a text starting with `#` and containing a wildcard is accepted as a
`TargetMask` first; otherwise `Channel`, then `TargetMask`, then `Nickname`
are attempted in order; when all fail the text is split on `{'!', '@', '%'}`
and the collected punctuation must match exactly `!@`, `%@`, `%` or `@` to
give the corresponding compound form, every other combination being
rejected. -/
theorem c5_recipient_precedence :
    (∀ (raw : Str) (m : TargetMask),
      raw.head? = some '#' →
      raw.any (fun c => c = '*' ∨ c = '?') = true →
      TargetMask.fromStr raw = .ok m →
      Recipient.fromStr raw = .ok (.TargetMask m))
    ∧ (∀ (raw : Str) (c : Channel),
      ¬(raw.head? = some '#' ∧ raw.any (fun c => c = '*' ∨ c = '?') = true
          ∧ (TargetMask.fromStr raw).isOk = true) →
      Channel.fromStr raw = .ok c →
      Recipient.fromStr raw = .ok (.Channel c))
    ∧ (∀ (raw : Str) (e : ParseError) (m : TargetMask),
      Channel.fromStr raw = .error e →
      TargetMask.fromStr raw = .ok m →
      Recipient.fromStr raw = .ok (.TargetMask m))
    ∧ (∀ (raw : Str) (e e' : ParseError) (n : Nickname),
      Channel.fromStr raw = .error e →
      TargetMask.fromStr raw = .error e' →
      Nickname.fromStr raw = .ok n →
      Recipient.fromStr raw = .ok (.Nickname n))
    ∧ (∀ (raw : Str) (e e' e'' : ParseError),
      Channel.fromStr raw = .error e →
      TargetMask.fromStr raw = .error e' →
      Nickname.fromStr raw = .error e'' →
      Recipient.fromStr raw = recipientPunctSplit raw)
    ∧ (∀ (raw p0 p1 p2 : Str) (n : Nickname) (u : Username) (h : Host),
      punctOf ['!', '@', '%'] raw = ['!', '@'] →
      splitOnAny ['!', '@'] raw = [p0, p1, p2] →
      Nickname.fromStr p0 = .ok n →
      Username.fromStr p1 = .ok u →
      Host.fromStr p2 = .ok h →
      recipientPunctSplit raw = .ok (.NicknameUserHost n u h))
    ∧ (∀ (raw p0 p1 p2 : Str) (u : Username) (h : Host) (sn : Servername),
      punctOf ['!', '@', '%'] raw = ['%', '@'] →
      splitOnAny ['%', '@'] raw = [p0, p1, p2] →
      Username.fromStr p0 = .ok u →
      Host.fromStr p1 = .ok h →
      Servername.fromStr p2 = .ok sn →
      recipientPunctSplit raw = .ok (.UserHostServername u h sn))
    ∧ (∀ (raw p0 p1 : Str) (u : Username) (h : Host),
      punctOf ['!', '@', '%'] raw = ['%'] →
      splitOnChar '%' raw = [p0, p1] →
      Username.fromStr p0 = .ok u →
      Host.fromStr p1 = .ok h →
      recipientPunctSplit raw = .ok (.UserHost u h))
    ∧ (∀ (raw p0 p1 : Str) (u : Username) (sn : Servername),
      punctOf ['!', '@', '%'] raw = ['@'] →
      splitOnChar '@' raw = [p0, p1] →
      Username.fromStr p0 = .ok u →
      Servername.fromStr p1 = .ok sn →
      recipientPunctSplit raw = .ok (.UserServername u sn))
    ∧ (∀ raw : Str,
      punctOf ['!', '@', '%'] raw ≠ ['!', '@'] →
      punctOf ['!', '@', '%'] raw ≠ ['%', '@'] →
      punctOf ['!', '@', '%'] raw ≠ ['%'] →
      punctOf ['!', '@', '%'] raw ≠ ['@'] →
      recipientPunctSplit raw = .error ⟨"Recipient"⟩) := by
  refine ⟨?_, ?_, ?_, ?_, ?_, ?_, ?_, ?_, ?_, ?_⟩
  · intro raw m h1 h2 h3
    unfold Recipient.fromStr
    rw [if_pos ⟨h1, h2, by rw [h3]; rfl⟩, h3]
    rfl
  · intro raw c hneg h2
    unfold Recipient.fromStr
    rw [if_neg hneg, h2]
  · intro raw e m hchan hmask
    unfold Recipient.fromStr
    by_cases hcond : (raw.head? = some '#'
        ∧ raw.any (fun c => c = '*' ∨ c = '?') = true
        ∧ (TargetMask.fromStr raw).isOk = true)
    · rw [if_pos hcond, hmask]
      rfl
    · rw [if_neg hcond, hchan, hmask]
  · intro raw e e' n hchan hmask hnick
    unfold Recipient.fromStr
    rw [if_neg (fun hcond => by rw [hmask] at hcond; exact absurd hcond.2.2 (by simp [Except.isOk, Except.toBool]))]
    rw [hchan, hmask, hnick]
  · intro raw e e' e'' hchan hmask hnick
    unfold Recipient.fromStr
    rw [if_neg (fun hcond => by rw [hmask] at hcond; exact absurd hcond.2.2 (by simp [Except.isOk, Except.toBool]))]
    rw [hchan, hmask, hnick]
  · intro raw p0 p1 p2 n u h hpunct hsplit hn hu hh
    unfold recipientPunctSplit
    rw [if_pos hpunct, hsplit]
    simp only []
    rw [hn, hu, hh]
  · intro raw p0 p1 p2 u h sn hpunct hsplit hu hh hsn
    unfold recipientPunctSplit
    rw [if_neg (by rw [hpunct]; decide), if_pos hpunct, hsplit]
    simp only []
    rw [hu, hh, hsn]
  · intro raw p0 p1 u h hpunct hsplit hu hh
    unfold recipientPunctSplit
    rw [if_neg (by rw [hpunct]; decide), if_neg (by rw [hpunct]; decide),
      if_pos hpunct, hsplit]
    simp only []
    rw [hu, hh]
  · intro raw p0 p1 u sn hpunct hsplit hu hsn
    unfold recipientPunctSplit
    rw [if_neg (by rw [hpunct]; decide), if_neg (by rw [hpunct]; decide),
      if_neg (by rw [hpunct]; decide), if_pos hpunct, hsplit]
    simp only []
    rw [hu, hsn]
  · intro raw h1 h2 h3 h4
    unfold recipientPunctSplit
    rw [if_neg h1, if_neg h2, if_neg h3, if_neg h4]

theorem c5_witness :
    Recipient.fromStr (str "#*.com")
      = .ok (.TargetMask (.Host ⟨str "*.com"⟩)) :=
  c5_recipient_precedence.1 (str "#*.com") (.Host ⟨str "*.com"⟩)
    (by decide) (by decide) (by decide)
